import Mathlib

/-!
# Playbook mutations of `server/api/graphql_playbook.go`

A shallow embedding of `PlaybookMutationCollection` (UpdatePlaybook, AddPlaybookMember,
RemovePlaybookMember, AddMetric, UpdateMetric, DeleteMetric) and of
`MetricConfigResolver.Target`.

The collaborators reached through the request context (`playbookService`, `permissions`,
`licenceChecker`, `pluginAPI`, `playbookStore`, `categoryService`) and the functions of package
`app` are interfaces whose bodies are outside the file; they are the fields of `Env`, one function
per method, and every theorem quantifies over them.  Each call of a collaborator is appended to a
trace, so that "which calls were made, with which arguments, in which order" is part of the result
of a mutation.
-/

set_option autoImplicit false
set_option linter.unusedTactic false
set_option linter.unreachableTactic false
set_option linter.unnecessarySeqFocus false

namespace api

/-! ## Data model -/

/-- Go `error` values.  `new` is `errors.New` (also any error made by a collaborator), `wrap` is
`errors.Wrap` / `errors.Wrapf`, and the two sentinels are `app.ErrLicensedFeature` and
`app.ErrNoPermissions`. -/
inductive Error where
  | new (msg : String)
  | ErrLicensedFeature
  | ErrNoPermissions
  | wrap (cause : Error) (msg : String)
  deriving DecidableEq, Repr

/-- Whether `target` is `e` itself or lies on the cause chain of `e`. -/
def Error.wraps : Error → Error → Bool
  | .wrap cause msg, target => (Error.wrap cause msg == target) || cause.wraps target
  | e, target => e == target

/-- A Go `float64`, kept as its bit pattern.  The mutations never compute with it: a float is either
stored unchanged or handed to the `int64(...)` conversion, which is a field of `Env`. -/
structure Float64 where
  bits : Nat
  deriving DecidableEq, Repr

/-- The type `null.Int` of `gopkg.in/guregu/null.v4`: an `int64` with a validity flag. -/
structure NullInt where
  Int64 : Int
  Valid : Bool
  deriving DecidableEq, Repr

/-- Constructor `null.NewInt(i, valid)`. -/
def NullInt.NewInt (i : Int) (valid : Bool) : NullInt := ⟨i, valid⟩

/-- Constructor `null.IntFrom(i)`: always valid. -/
def NullInt.IntFrom (i : Int) : NullInt := NullInt.NewInt i true

/-- Method `ValueOrZero`: the value when valid, zero otherwise. -/
def NullInt.ValueOrZero (n : NullInt) : Int := if n.Valid then n.Int64 else 0

/-- The fields of `app.Playbook` that the mutations read. -/
structure Playbook where
  ID : String
  TeamID : String
  DeleteAt : Int
  BroadcastChannelIDs : List String
  deriving DecidableEq, Repr

/-- The record `app.PlaybookMetricConfig`. -/
structure PlaybookMetricConfig where
  ID : String
  PlaybookID : String
  Title : String
  Description : String
  Type_ : String
  Target : NullInt
  deriving DecidableEq, Repr

/-- The record `app.CategoryItem`. -/
structure CategoryItem where
  ItemID : String
  Type_ : String
  deriving DecidableEq, Repr

/-- Modelled from the spec: the constant `app.PlaybookItemType` is declared outside the file; the
favorite relation is keyed by item type "playbook". -/
def PlaybookItemType : String := "playbook"

/-- The permission id `model.PermissionViewTeam` of the server library. -/
def PermissionViewTeam : String := "view_team"

/-- The element type of `Updates.Checklists`.  Its declaration is outside the file and the mutation
only hands the list to `json.Marshal`, so the content is an uninterpreted payload. -/
structure UpdateChecklist where
  payload : String
  deriving DecidableEq, Repr

/-- A value stored in a change set (an empty-interface value in Go): the dynamic types that the mutations put
in a `setmap`. -/
inductive Value where
  | str (s : String)
  | bool (b : Bool)
  | float (f : Float64)
  | bytes (b : String)
  | nullInt (n : NullInt)
  deriving DecidableEq, Repr

/-- A change set, a Go map from string to empty-interface values, as an association list with at most one entry per key. -/
abbrev Setmap := List (String × Value)

/-- Assignment `setmap[name] = value`: replaces the entry of an existing key, adds one otherwise. -/
def Setmap.set : Setmap → String → Value → Setmap
  | [], name, value => [(name, value)]
  | (k, v) :: rest, name, value =>
    if k = name then (k, value) :: rest else (k, v) :: Setmap.set rest name value

/-- Modelled from the spec: `addToSetmap` is declared outside the file.  A field that is not
provided is skipped, a provided one is staged under `name` (spec 4.1, step 3). -/
def addToSetmap (setmap : Setmap) (name : String) (value : Option Value) : Setmap :=
  match value with
  | none => setmap
  | some v => setmap.set name v

/-- Modelled from the spec: `addConcatToSetmap` is declared outside the file.  A provided list is
staged under `name` as one string, produced by the list encoder `concat` (spec 4.3); a list that is
not provided is skipped. -/
def addConcatToSetmap (concat : List String → String) (setmap : Setmap) (name : String)
    (value : Option (List String)) : Setmap :=
  match value with
  | none => setmap
  | some l => setmap.set name (Value.str (concat l))

/-! ## Collaborators and the call trace -/

/-- One call of a collaborator method, with its arguments. -/
inductive Call where
  | Get (id : String)
  | GetMetric (id : String)
  | PlaybookManageProperties (userID : String) (pb : Playbook)
  | PlaybookManageMembers (userID : String) (pb : Playbook)
  | PlaybookMakePrivate (userID : String) (pb : Playbook)
  | PlaybookMakePublic (userID : String) (pb : Playbook)
  | PlaybookAllowed (isPublic : Bool)
  | FilterInvitedUserIDs (ids : List String) (teamID : String)
  | FilterInvitedGroupIDs (ids : List String)
  | HasPermissionToTeam (userID teamID permission : String)
  | NoAddedBroadcastChannelsWithoutPermission (userID : String) (ids current : List String)
  | GraphqlUpdate (id : String) (setmap : Setmap)
  | AddPlaybookMember (playbookID userID : String)
  | RemovePlaybookMember (playbookID userID : String)
  | AddMetric (playbookID : String) (config : PlaybookMetricConfig)
  | UpdateMetric (id : String) (setmap : Setmap)
  | DeleteMetric (id : String)
  | AddFavorite (item : CategoryItem) (teamID userID : String)
  | DeleteFavorite (item : CategoryItem) (teamID userID : String)
  deriving DecidableEq, Repr

/-- The calls that change stored state: the writes of `playbookStore` and of `categoryService`. -/
def Call.isWrite : Call → Bool
  | .GraphqlUpdate _ _ => true
  | .AddPlaybookMember _ _ => true
  | .RemovePlaybookMember _ _ => true
  | .AddMetric _ _ => true
  | .UpdateMetric _ _ => true
  | .DeleteMetric _ => true
  | .AddFavorite _ _ _ => true
  | .DeleteFavorite _ _ _ => true
  | _ => false

/-- Calls of `playbookStore.GraphqlUpdate`. -/
def Call.isGraphqlUpdate : Call → Bool
  | .GraphqlUpdate _ _ => true
  | _ => false

/-- Calls of `playbookStore.UpdateMetric`. -/
def Call.isUpdateMetric : Call → Bool
  | .UpdateMetric _ _ => true
  | _ => false

/-- Calls of `categoryService.AddFavorite` and `categoryService.DeleteFavorite`. -/
def Call.isFavorite : Call → Bool
  | .AddFavorite _ _ _ => true
  | .DeleteFavorite _ _ _ => true
  | _ => false

/-- What a request sees of its surroundings: the outcome of `getContext`, the actor id read from the
header `Mattermost-User-ID`, and the answer of every collaborator method and package function that
the mutations use.  An `Option Error` answer is Go's `error` (`none` is `nil`). -/
structure Env where
  getContext : Option Error
  userID : String
  Get : String → Except Error Playbook
  PlaybookManageProperties : String → Playbook → Option Error
  PlaybookManageMembers : String → Playbook → Option Error
  PlaybookMakePrivate : String → Playbook → Option Error
  PlaybookMakePublic : String → Playbook → Option Error
  PlaybookAllowed : Bool → Bool
  FilterInvitedUserIDs : List String → String → List String
  FilterInvitedGroupIDs : List String → List String
  HasPermissionToTeam : String → String → String → Bool
  NoAddedBroadcastChannelsWithoutPermission : String → List String → List String → Option Error
  ValidateWebhookURLs : List String → Option Error
  ProcessSignalAnyKeywords : List String → List String
  ValidateCategoryName : String → Option Error
  jsonMarshal : List UpdateChecklist → Except Error String
  concat : List String → String
  int64 : Float64 → Int
  GraphqlUpdate : String → Setmap → Option Error
  AddPlaybookMember : String → String → Option Error
  RemovePlaybookMember : String → String → Option Error
  AddMetric : String → PlaybookMetricConfig → Option Error
  GetMetric : String → Except Error PlaybookMetricConfig
  UpdateMetric : String → Setmap → Option Error
  DeleteMetric : String → Option Error
  AddFavorite : CategoryItem → String → String → Option Error
  DeleteFavorite : CategoryItem → String → String → Option Error

/-- The pair `(string, error)` that every mutation returns. -/
structure Ret where
  val : String
  err : Option Error
  deriving DecidableEq, Repr

/-- The result of running a mutation: the returned pair and the collaborator calls it made, in
order. -/
structure Outcome where
  val : String
  err : Option Error
  trace : List Call
  deriving DecidableEq, Repr

/-- A piece of a mutation body: either it has executed a `return` statement (`Except.error`) or it
falls through with a value (`Except.ok`); in both cases it has made the listed calls. -/
def M (α : Type) : Type := Except Ret α × List Call

/-- Falling through with a value, no call made. -/
def M.pure {α : Type} (a : α) : M α := (Except.ok a, [])

/-- Sequencing: a `return` in the first part skips the second; traces are appended. -/
def M.bind {α β : Type} (x : M α) (f : α → M β) : M β :=
  match x with
  | (Except.error r, t) => (Except.error r, t)
  | (Except.ok a, t) => ((f a).1, t ++ (f a).2)

instance : Monad M where
  pure := M.pure
  bind := M.bind

/-- The statement `return val, err`. -/
def ret {α : Type} (val : String) (err : Option Error) : M α := (Except.error ⟨val, err⟩, [])

/-- A collaborator call `c` that answers `r`. -/
def call {α : Type} (c : Call) (r : α) : M α := (Except.ok r, [c])

/-- The idiom "if err != nil, return the empty string and err". -/
def failOn (err : Option Error) : M Unit :=
  match err with
  | some e => ret "" (some e)
  | none => M.pure ()

/-- The idiom "if err != nil, return the empty string and errors.Wrap(err, msg)". -/
def failOnWrap (err : Option Error) (msg : String) : M Unit :=
  match err with
  | some e => ret "" (some (Error.wrap e msg))
  | none => M.pure ()

/-- The idiom "v, err := f(); if err != nil, return the empty string and err". -/
def orFail {α : Type} (r : Except Error α) : M α :=
  match r with
  | Except.error e => ret "" (some e)
  | Except.ok a => M.pure a

/-- Runs a mutation body to its `return`. -/
def M.run (m : M Ret) : Outcome :=
  match m with
  | (Except.error r, t) => ⟨r.val, r.err, t⟩
  | (Except.ok r, t) => ⟨r.val, r.err, t⟩

/-- The common opening of every mutation: `getContext`, then the actor id from the header. -/
def getContext (env : Env) : M String := do
  failOn env.getContext
  pure env.userID

/-! ## Resolvers -/

/-- Conversion `int32(x)` of an `int64`: wraps modulo `2^32` into the signed range. -/
def int32 (x : Int) : Int := (x + 2 ^ 31) % 2 ^ 32 - 2 ^ 31

/-- The resolver `MetricConfigResolver.Target`: `nil` for a target that is not valid. -/
def MetricConfigResolver.Target (r : PlaybookMetricConfig) : Option Int :=
  if r.Target.Valid then
    some (int32 r.Target.ValueOrZero)
  else
    none

/-! ## Member and metric mutations -/

/-- Arguments of AddPlaybookMember and RemovePlaybookMember. -/
structure MemberArgs where
  PlaybookID : String
  UserID : String
  deriving DecidableEq, Repr

/-- The mutation `PlaybookMutationCollection.AddPlaybookMember`. -/
def AddPlaybookMember (env : Env) (args : MemberArgs) : Outcome := M.run do
  let userID ← getContext env
  let currentPlaybook ← orFail (← call (.Get args.PlaybookID) (env.Get args.PlaybookID))
  if currentPlaybook.DeleteAt ≠ 0 then
    ret "" (some (Error.new "archived playbooks can not be modified"))
  else
  failOnWrap (← call (.PlaybookManageMembers userID currentPlaybook)
      (env.PlaybookManageMembers userID currentPlaybook))
    "attempted to modify members without permissions"
  failOnWrap (← call (.AddPlaybookMember args.PlaybookID args.UserID)
      (env.AddPlaybookMember args.PlaybookID args.UserID))
    "unable to add playbook member"
  ret "" none

/-- The mutation `PlaybookMutationCollection.RemovePlaybookMember`. -/
def RemovePlaybookMember (env : Env) (args : MemberArgs) : Outcome := M.run do
  let userID ← getContext env
  let currentPlaybook ← orFail (← call (.Get args.PlaybookID) (env.Get args.PlaybookID))
  if currentPlaybook.DeleteAt ≠ 0 then
    ret "" (some (Error.new "archived playbooks can not be modified"))
  else
  failOnWrap (← call (.PlaybookManageMembers userID currentPlaybook)
      (env.PlaybookManageMembers userID currentPlaybook))
    "attempted to modify members without permissions"
  failOnWrap (← call (.RemovePlaybookMember args.PlaybookID args.UserID)
      (env.RemovePlaybookMember args.PlaybookID args.UserID))
    "unable to remove playbook member"
  ret "" none

/-- Arguments of AddMetric. -/
structure AddMetricArgs where
  PlaybookID : String
  Title : String
  Description : String
  Type_ : String
  Target : Option Float64
  deriving DecidableEq, Repr

/-- The mutation `PlaybookMutationCollection.AddMetric`. -/
def AddMetric (env : Env) (args : AddMetricArgs) : Outcome := M.run do
  let userID ← getContext env
  let currentPlaybook ← orFail (← call (.Get args.PlaybookID) (env.Get args.PlaybookID))
  if currentPlaybook.DeleteAt ≠ 0 then
    ret "" (some (Error.new "archived playbooks can not be modified"))
  else
  failOn (← call (.PlaybookManageProperties userID currentPlaybook)
    (env.PlaybookManageProperties userID currentPlaybook))
  let target : NullInt :=
    match args.Target with
    | none => NullInt.NewInt 0 false
    | some f => NullInt.IntFrom (env.int64 f)
  let config : PlaybookMetricConfig :=
    ⟨"", "", args.Title, args.Description, args.Type_, target⟩
  failOn (← call (.AddMetric args.PlaybookID config) (env.AddMetric args.PlaybookID config))
  ret args.PlaybookID none

/-- Arguments of UpdateMetric. -/
structure UpdateMetricArgs where
  ID : String
  Title : Option String
  Description : Option String
  Target : Option Float64
  deriving DecidableEq, Repr

/-- Lines 438 to 443 of UpdateMetric: the change set of the supplied fields. -/
def UpdateMetric.stage (env : Env) (args : UpdateMetricArgs) : Setmap :=
  let setmap : Setmap := []
  let setmap := addToSetmap setmap "Title" (args.Title.map Value.str)
  let setmap := addToSetmap setmap "Description" (args.Description.map Value.str)
  match args.Target with
  | some f => setmap.set "Target" (Value.nullInt (NullInt.IntFrom (env.int64 f)))
  | none => setmap

/-- The mutation `PlaybookMutationCollection.UpdateMetric`. -/
def UpdateMetric (env : Env) (args : UpdateMetricArgs) : Outcome := M.run do
  let userID ← getContext env
  let currentMetric ← orFail (← call (.GetMetric args.ID) (env.GetMetric args.ID))
  let currentPlaybook ← orFail
    (← call (.Get currentMetric.PlaybookID) (env.Get currentMetric.PlaybookID))
  if currentPlaybook.DeleteAt ≠ 0 then
    ret "" (some (Error.new "archived playbooks can not be modified"))
  else
  failOn (← call (.PlaybookManageProperties userID currentPlaybook)
    (env.PlaybookManageProperties userID currentPlaybook))
  let setmap := UpdateMetric.stage env args
  (if setmap.length > 0 then do
    failOn (← call (.UpdateMetric args.ID setmap) (env.UpdateMetric args.ID setmap))
  else
    pure ())
  ret args.ID none

/-- Arguments of DeleteMetric. -/
structure DeleteMetricArgs where
  ID : String
  deriving DecidableEq, Repr

/-- The mutation `PlaybookMutationCollection.DeleteMetric`. -/
def DeleteMetric (env : Env) (args : DeleteMetricArgs) : Outcome := M.run do
  let userID ← getContext env
  let currentMetric ← orFail (← call (.GetMetric args.ID) (env.GetMetric args.ID))
  let currentPlaybook ← orFail
    (← call (.Get currentMetric.PlaybookID) (env.Get currentMetric.PlaybookID))
  failOn (← call (.PlaybookManageProperties userID currentPlaybook)
    (env.PlaybookManageProperties userID currentPlaybook))
  failOn (← call (.DeleteMetric args.ID) (env.DeleteMetric args.ID))
  ret args.ID none

/-! ## UpdatePlaybook -/

/-- The argument struct `Updates` of UpdatePlaybook: every field is a pointer, `none` is `nil`. -/
structure Updates where
  Title : Option String
  Description : Option String
  Public : Option Bool
  CreatePublicPlaybookRun : Option Bool
  ReminderMessageTemplate : Option String
  ReminderTimerDefaultSeconds : Option Float64
  StatusUpdateEnabled : Option Bool
  InvitedUserIDs : Option (List String)
  InvitedGroupIDs : Option (List String)
  InviteUsersEnabled : Option Bool
  DefaultOwnerID : Option String
  DefaultOwnerEnabled : Option Bool
  BroadcastChannelIDs : Option (List String)
  BroadcastEnabled : Option Bool
  WebhookOnCreationURLs : Option (List String)
  WebhookOnCreationEnabled : Option Bool
  MessageOnJoin : Option String
  MessageOnJoinEnabled : Option Bool
  RetrospectiveReminderIntervalSeconds : Option Float64
  RetrospectiveTemplate : Option String
  RetrospectiveEnabled : Option Bool
  WebhookOnStatusUpdateURLs : Option (List String)
  WebhookOnStatusUpdateEnabled : Option Bool
  SignalAnyKeywords : Option (List String)
  SignalAnyKeywordsEnabled : Option Bool
  CategorizeChannelEnabled : Option Bool
  CategoryName : Option String
  RunSummaryTemplateEnabled : Option Bool
  RunSummaryTemplate : Option String
  ChannelNameTemplate : Option String
  Checklists : Option (List UpdateChecklist)
  IsFavorite : Option Bool
  deriving DecidableEq, Repr

/-- Arguments of UpdatePlaybook. -/
structure UpdatePlaybookArgs where
  ID : String
  Updates : Updates
  deriving DecidableEq, Repr

/-- Lines 174 to 266 of UpdatePlaybook: the change set `setmap` is built field by field, in the
order of the source, each field with its own check; a failed check returns from the mutation. -/
def UpdatePlaybook.stage (env : Env) (userID : String) (currentPlaybook : Playbook)
    (id : String) (u : Updates) : M Setmap := do
  let setmap : Setmap := []
  let setmap := addToSetmap setmap "Title" (u.Title.map Value.str)
  let setmap := addToSetmap setmap "Description" (u.Description.map Value.str)
  let setmap ←
    (match u.Public with
     | none => pure setmap
     | some isPublic => do
       (if isPublic then do
         failOnWrap (← call (.PlaybookMakePrivate userID currentPlaybook)
             (env.PlaybookMakePrivate userID currentPlaybook))
           "attempted to make playbook private without permissions"
       else do
         failOnWrap (← call (.PlaybookMakePublic userID currentPlaybook)
             (env.PlaybookMakePublic userID currentPlaybook))
           "attempted to make playbook public without permissions")
       if (← call (.PlaybookAllowed isPublic) (env.PlaybookAllowed isPublic)) then
         ret "" (some (Error.wrap Error.ErrLicensedFeature
           "the playbook is not valid with the current license"))
       else
         pure (addToSetmap setmap "Public" (some (Value.bool isPublic))))
  let setmap := addToSetmap setmap "CreatePublicIncident" (u.CreatePublicPlaybookRun.map Value.bool)
  let setmap := addToSetmap setmap "ReminderMessageTemplate"
    (u.ReminderMessageTemplate.map Value.str)
  let setmap := addToSetmap setmap "ReminderTimerDefaultSeconds"
    (u.ReminderTimerDefaultSeconds.map Value.float)
  let setmap := addToSetmap setmap "StatusUpdateEnabled" (u.StatusUpdateEnabled.map Value.bool)
  let setmap ←
    (match u.InvitedUserIDs with
     | none => pure setmap
     | some ids => do
       let filteredInvitedUserIDs ← call (.FilterInvitedUserIDs ids currentPlaybook.TeamID)
         (env.FilterInvitedUserIDs ids currentPlaybook.TeamID)
       pure (addConcatToSetmap env.concat setmap "ConcatenatedInvitedUserIDs"
         (some filteredInvitedUserIDs)))
  let setmap ←
    (match u.InvitedGroupIDs with
     | none => pure setmap
     | some ids => do
       let filteredInvitedGroupIDs ← call (.FilterInvitedGroupIDs ids)
         (env.FilterInvitedGroupIDs ids)
       pure (addConcatToSetmap env.concat setmap "ConcatenatedInvitedGroupIDs"
         (some filteredInvitedGroupIDs)))
  let setmap := addToSetmap setmap "InviteUsersEnabled" (u.InviteUsersEnabled.map Value.bool)
  let setmap ←
    (match u.DefaultOwnerID with
     | none => pure setmap
     | some owner => do
       if !(← call (.HasPermissionToTeam owner currentPlaybook.TeamID PermissionViewTeam)
           (env.HasPermissionToTeam owner currentPlaybook.TeamID PermissionViewTeam)) then
         ret "" (some (Error.wrap Error.ErrNoPermissions "default owner can't view team"))
       else
         pure (addToSetmap setmap "DefaultCommanderID" (some (Value.str owner))))
  let setmap := addToSetmap setmap "DefaultCommanderEnabled" (u.DefaultOwnerEnabled.map Value.bool)
  let setmap ←
    (match u.BroadcastChannelIDs with
     | none => pure setmap
     | some ids => do
       failOn (← call
         (.NoAddedBroadcastChannelsWithoutPermission userID ids currentPlaybook.BroadcastChannelIDs)
         (env.NoAddedBroadcastChannelsWithoutPermission userID ids
           currentPlaybook.BroadcastChannelIDs))
       pure (addConcatToSetmap env.concat setmap "ConcatenatedBroadcastChannelIDs" (some ids)))
  let setmap := addToSetmap setmap "BroadcastEnabled" (u.BroadcastEnabled.map Value.bool)
  let setmap ←
    (match u.WebhookOnCreationURLs with
     | none => pure setmap
     | some urls => do
       failOn (env.ValidateWebhookURLs urls)
       pure (addConcatToSetmap env.concat setmap "ConcatenatedWebhookOnCreationURLs" (some urls)))
  let setmap := addToSetmap setmap "WebhookOnCreationEnabled"
    (u.WebhookOnCreationEnabled.map Value.bool)
  let setmap := addToSetmap setmap "MessageOnJoin" (u.MessageOnJoin.map Value.str)
  let setmap := addToSetmap setmap "MessageOnJoinEnabled" (u.MessageOnJoinEnabled.map Value.bool)
  let setmap := addToSetmap setmap "RetrospectiveReminderIntervalSeconds"
    (u.RetrospectiveReminderIntervalSeconds.map Value.float)
  let setmap := addToSetmap setmap "RetrospectiveTemplate" (u.RetrospectiveTemplate.map Value.str)
  let setmap := addToSetmap setmap "RetrospectiveEnabled" (u.RetrospectiveEnabled.map Value.bool)
  let setmap ←
    (match u.WebhookOnStatusUpdateURLs with
     | none => pure setmap
     | some urls => do
       failOn (env.ValidateWebhookURLs urls)
       pure (addConcatToSetmap env.concat setmap "ConcatenatedWebhookOnStatusUpdateURLs"
         (some urls)))
  let setmap := addToSetmap setmap "WebhookOnStatusUpdateEnabled"
    (u.WebhookOnStatusUpdateEnabled.map Value.bool)
  let setmap ←
    (match u.SignalAnyKeywords with
     | none => pure setmap
     | some keywords => do
       let validSignalAnyKeywords := env.ProcessSignalAnyKeywords keywords
       pure (addConcatToSetmap env.concat setmap "ConcatenatedSignalAnyKeywords"
         (some validSignalAnyKeywords)))
  let setmap := addToSetmap setmap "SignalAnyKeywordsEnabled"
    (u.SignalAnyKeywordsEnabled.map Value.bool)
  let setmap := addToSetmap setmap "CategorizeChannelEnabled"
    (u.CategorizeChannelEnabled.map Value.bool)
  let setmap ←
    (match u.CategoryName with
     | none => pure setmap
     | some name => do
       failOn (env.ValidateCategoryName name)
       pure (addToSetmap setmap "CategoryName" (some (Value.str name))))
  let setmap := addToSetmap setmap "RunSummaryTemplateEnabled"
    (u.RunSummaryTemplateEnabled.map Value.bool)
  let setmap := addToSetmap setmap "RunSummaryTemplate" (u.RunSummaryTemplate.map Value.str)
  let setmap := addToSetmap setmap "ChannelNameTemplate" (u.ChannelNameTemplate.map Value.str)
  match u.Checklists with
  | none => pure setmap
  | some checklists =>
    match env.jsonMarshal checklists with
    | Except.error e =>
      ret "" (some (Error.wrap e
        ("failed to marshal checklist in graphql json for playbook id: '" ++ id ++ "'")))
    | Except.ok checklistsJSON => pure (setmap.set "ChecklistsJSON" (Value.bytes checklistsJSON))

/-- Lines 274 to 298 of UpdatePlaybook: the favorite toggle. -/
def UpdatePlaybook.favorite (env : Env) (userID : String) (currentPlaybook : Playbook)
    (isFavorite : Option Bool) : M Unit :=
  match isFavorite with
  | none => pure ()
  | some true => do
    failOn (← call
      (.AddFavorite ⟨currentPlaybook.ID, PlaybookItemType⟩ currentPlaybook.TeamID userID)
      (env.AddFavorite ⟨currentPlaybook.ID, PlaybookItemType⟩ currentPlaybook.TeamID userID))
  | some false => do
    failOn (← call
      (.DeleteFavorite ⟨currentPlaybook.ID, PlaybookItemType⟩ currentPlaybook.TeamID userID)
      (env.DeleteFavorite ⟨currentPlaybook.ID, PlaybookItemType⟩ currentPlaybook.TeamID userID))

/-- The mutation `PlaybookMutationCollection.UpdatePlaybook`. -/
def UpdatePlaybook (env : Env) (args : UpdatePlaybookArgs) : Outcome := M.run do
  let userID ← getContext env
  let currentPlaybook ← orFail (← call (.Get args.ID) (env.Get args.ID))
  if currentPlaybook.DeleteAt ≠ 0 then
    ret "" (some (Error.new "archived playbooks can not be modified"))
  else
  failOn (← call (.PlaybookManageProperties userID currentPlaybook)
    (env.PlaybookManageProperties userID currentPlaybook))
  let setmap ← UpdatePlaybook.stage env userID currentPlaybook args.ID args.Updates
  (if setmap.length > 0 then do
    failOn (← call (.GraphqlUpdate args.ID setmap) (env.GraphqlUpdate args.ID setmap))
  else
    pure ())
  UpdatePlaybook.favorite env userID currentPlaybook args.Updates.IsFavorite
  ret args.ID none

/-- The outcome of the favorite toggle after the calls `tr`. -/
def toggled (env : Env) (pb : Playbook) (args : UpdatePlaybookArgs) (tr : List Call) : Outcome :=
  match args.Updates.IsFavorite with
  | none => ⟨args.ID, none, tr⟩
  | some true =>
    match env.AddFavorite ⟨pb.ID, PlaybookItemType⟩ pb.TeamID env.userID with
    | none => ⟨args.ID, none, tr ++ [Call.AddFavorite ⟨pb.ID, PlaybookItemType⟩ pb.TeamID env.userID]⟩
    | some e =>
      ⟨"", some e, tr ++ [Call.AddFavorite ⟨pb.ID, PlaybookItemType⟩ pb.TeamID env.userID]⟩
  | some false =>
    match env.DeleteFavorite ⟨pb.ID, PlaybookItemType⟩ pb.TeamID env.userID with
    | none =>
      ⟨args.ID, none, tr ++ [Call.DeleteFavorite ⟨pb.ID, PlaybookItemType⟩ pb.TeamID env.userID]⟩
    | some e =>
      ⟨"", some e, tr ++ [Call.DeleteFavorite ⟨pb.ID, PlaybookItemType⟩ pb.TeamID env.userID]⟩

/-- The calls of an outcome that change stored state. -/
def Outcome.writes (o : Outcome) : List Call := o.trace.filter Call.isWrite

/-! ## The fields of an update request -/

/-- The fields of `Updates`, by name. -/
inductive Field where
  | Title
  | Description
  | Public
  | CreatePublicPlaybookRun
  | ReminderMessageTemplate
  | ReminderTimerDefaultSeconds
  | StatusUpdateEnabled
  | InvitedUserIDs
  | InvitedGroupIDs
  | InviteUsersEnabled
  | DefaultOwnerID
  | DefaultOwnerEnabled
  | BroadcastChannelIDs
  | BroadcastEnabled
  | WebhookOnCreationURLs
  | WebhookOnCreationEnabled
  | MessageOnJoin
  | MessageOnJoinEnabled
  | RetrospectiveReminderIntervalSeconds
  | RetrospectiveTemplate
  | RetrospectiveEnabled
  | WebhookOnStatusUpdateURLs
  | WebhookOnStatusUpdateEnabled
  | SignalAnyKeywords
  | SignalAnyKeywordsEnabled
  | CategorizeChannelEnabled
  | CategoryName
  | RunSummaryTemplateEnabled
  | RunSummaryTemplate
  | ChannelNameTemplate
  | Checklists
  | IsFavorite
  deriving DecidableEq, Repr

/-- Whether the request supplies the field (its pointer is not nil). -/
def Updates.supplied (u : Updates) : Field → Bool
  | .Title => u.Title.isSome
  | .Description => u.Description.isSome
  | .Public => u.Public.isSome
  | .CreatePublicPlaybookRun => u.CreatePublicPlaybookRun.isSome
  | .ReminderMessageTemplate => u.ReminderMessageTemplate.isSome
  | .ReminderTimerDefaultSeconds => u.ReminderTimerDefaultSeconds.isSome
  | .StatusUpdateEnabled => u.StatusUpdateEnabled.isSome
  | .InvitedUserIDs => u.InvitedUserIDs.isSome
  | .InvitedGroupIDs => u.InvitedGroupIDs.isSome
  | .InviteUsersEnabled => u.InviteUsersEnabled.isSome
  | .DefaultOwnerID => u.DefaultOwnerID.isSome
  | .DefaultOwnerEnabled => u.DefaultOwnerEnabled.isSome
  | .BroadcastChannelIDs => u.BroadcastChannelIDs.isSome
  | .BroadcastEnabled => u.BroadcastEnabled.isSome
  | .WebhookOnCreationURLs => u.WebhookOnCreationURLs.isSome
  | .WebhookOnCreationEnabled => u.WebhookOnCreationEnabled.isSome
  | .MessageOnJoin => u.MessageOnJoin.isSome
  | .MessageOnJoinEnabled => u.MessageOnJoinEnabled.isSome
  | .RetrospectiveReminderIntervalSeconds => u.RetrospectiveReminderIntervalSeconds.isSome
  | .RetrospectiveTemplate => u.RetrospectiveTemplate.isSome
  | .RetrospectiveEnabled => u.RetrospectiveEnabled.isSome
  | .WebhookOnStatusUpdateURLs => u.WebhookOnStatusUpdateURLs.isSome
  | .WebhookOnStatusUpdateEnabled => u.WebhookOnStatusUpdateEnabled.isSome
  | .SignalAnyKeywords => u.SignalAnyKeywords.isSome
  | .SignalAnyKeywordsEnabled => u.SignalAnyKeywordsEnabled.isSome
  | .CategorizeChannelEnabled => u.CategorizeChannelEnabled.isSome
  | .CategoryName => u.CategoryName.isSome
  | .RunSummaryTemplateEnabled => u.RunSummaryTemplateEnabled.isSome
  | .RunSummaryTemplate => u.RunSummaryTemplate.isSome
  | .ChannelNameTemplate => u.ChannelNameTemplate.isSome
  | .Checklists => u.Checklists.isSome
  | .IsFavorite => u.IsFavorite.isSome

/-- The key under which UpdatePlaybook puts a field in the change set, read off the source; the
field IsFavorite is never put in the change set. -/
def Field.key : Field → Option String
  | .Title => some "Title"
  | .Description => some "Description"
  | .Public => some "Public"
  | .CreatePublicPlaybookRun => some "CreatePublicIncident"
  | .ReminderMessageTemplate => some "ReminderMessageTemplate"
  | .ReminderTimerDefaultSeconds => some "ReminderTimerDefaultSeconds"
  | .StatusUpdateEnabled => some "StatusUpdateEnabled"
  | .InvitedUserIDs => some "ConcatenatedInvitedUserIDs"
  | .InvitedGroupIDs => some "ConcatenatedInvitedGroupIDs"
  | .InviteUsersEnabled => some "InviteUsersEnabled"
  | .DefaultOwnerID => some "DefaultCommanderID"
  | .DefaultOwnerEnabled => some "DefaultCommanderEnabled"
  | .BroadcastChannelIDs => some "ConcatenatedBroadcastChannelIDs"
  | .BroadcastEnabled => some "BroadcastEnabled"
  | .WebhookOnCreationURLs => some "ConcatenatedWebhookOnCreationURLs"
  | .WebhookOnCreationEnabled => some "WebhookOnCreationEnabled"
  | .MessageOnJoin => some "MessageOnJoin"
  | .MessageOnJoinEnabled => some "MessageOnJoinEnabled"
  | .RetrospectiveReminderIntervalSeconds => some "RetrospectiveReminderIntervalSeconds"
  | .RetrospectiveTemplate => some "RetrospectiveTemplate"
  | .RetrospectiveEnabled => some "RetrospectiveEnabled"
  | .WebhookOnStatusUpdateURLs => some "ConcatenatedWebhookOnStatusUpdateURLs"
  | .WebhookOnStatusUpdateEnabled => some "WebhookOnStatusUpdateEnabled"
  | .SignalAnyKeywords => some "ConcatenatedSignalAnyKeywords"
  | .SignalAnyKeywordsEnabled => some "SignalAnyKeywordsEnabled"
  | .CategorizeChannelEnabled => some "CategorizeChannelEnabled"
  | .CategoryName => some "CategoryName"
  | .RunSummaryTemplateEnabled => some "RunSummaryTemplateEnabled"
  | .RunSummaryTemplate => some "RunSummaryTemplate"
  | .ChannelNameTemplate => some "ChannelNameTemplate"
  | .Checklists => some "ChecklistsJSON"
  | .IsFavorite => none

/-! ## Concrete requests -/

/-- An update request that supplies no field. -/
def noUpdates : Updates :=
  ⟨none, none, none, none, none, none, none, none, none, none, none, none, none, none, none, none,
   none, none, none, none, none, none, none, none, none, none, none, none, none, none, none, none⟩

/-- An active playbook `P1` of team `T1`. -/
def playbookP1 : Playbook := ⟨"P1", "T1", 0, []⟩

/-- The playbook `P1`, archived at time 1700. -/
def archivedP1 : Playbook := ⟨"P1", "T1", 1700, []⟩

/-- Surroundings in which actor `U1` holds every capability, the licence allows every visibility,
every validator accepts and every store call succeeds; every playbook id resolves to `pb` and every
metric id to a metric of playbook `P1`.  The list encoder joins with a comma and the `int64`
conversion reads the bit pattern as a number: both are stand-ins, no theorem depends on them. -/
def okEnv (pb : Playbook) : Env where
  getContext := none
  userID := "U1"
  Get := fun _ => Except.ok pb
  PlaybookManageProperties := fun _ _ => none
  PlaybookManageMembers := fun _ _ => none
  PlaybookMakePrivate := fun _ _ => none
  PlaybookMakePublic := fun _ _ => none
  PlaybookAllowed := fun _ => true
  FilterInvitedUserIDs := fun ids _ => ids
  FilterInvitedGroupIDs := fun ids => ids
  HasPermissionToTeam := fun _ _ _ => true
  NoAddedBroadcastChannelsWithoutPermission := fun _ _ _ => none
  ValidateWebhookURLs := fun _ => none
  ProcessSignalAnyKeywords := fun l => l
  ValidateCategoryName := fun _ => none
  jsonMarshal := fun _ => Except.ok "[]"
  concat := fun l => String.intercalate "," l
  int64 := fun f => f.bits
  GraphqlUpdate := fun _ _ => none
  AddPlaybookMember := fun _ _ => none
  RemovePlaybookMember := fun _ _ => none
  AddMetric := fun _ _ => none
  GetMetric := fun id => Except.ok ⟨id, "P1", "MTTR", "Mean time to resolve", "metric_duration",
    NullInt.NewInt 0 false⟩
  UpdateMetric := fun _ _ => none
  DeleteMetric := fun _ => none
  AddFavorite := fun _ _ _ => none
  DeleteFavorite := fun _ _ _ => none

/-- The surroundings `okEnv playbookP1` under a licence that forbids public playbooks and allows
private ones. -/
def noPublicLicenceEnv : Env :=
  { okEnv playbookP1 with PlaybookAllowed := fun isPublic => !isPublic }

/-- The surroundings `okEnv playbookP1` for an actor who may make the playbook private but not
public. -/
def noMakePublicEnv : Env :=
  { okEnv playbookP1 with PlaybookMakePublic := fun _ _ => some Error.ErrNoPermissions }

/-- The surroundings `okEnv playbookP1` with a favorite service whose AddFavorite fails. -/
def failingFavoriteEnv : Env :=
  { okEnv playbookP1 with AddFavorite := fun _ _ _ => some (Error.new "favorite store down") }

/-- The surroundings `okEnv playbookP1` in which no proposed owner can view the team. -/
def outsiderOwnerEnv : Env :=
  { okEnv playbookP1 with HasPermissionToTeam := fun _ _ _ => false }

/-! ## Properties of pieces of a mutation body -/

/-- A piece of a mutation body that validates: it makes no write, and a `return` it executes hands
back the empty string with a non-nil error. -/
def Validates {α : Type} (m : M α) : Prop :=
  (∀ c ∈ m.2, Call.isWrite c = false) ∧ ∀ r, m.1 = Except.error r → r.val = "" ∧ r.err ≠ none

/-- A piece that, when it falls through, hands on a change set with at least one entry. -/
def SetsKey (m : M Setmap) : Prop := ∀ a t, m = (Except.ok a, t) → a ≠ []

/-! ## Laws of the sequencing -/

@[simp] theorem seq_bind {α β : Type} (x : M α) (f : α → M β) : x >>= f = M.bind x f := rfl

@[simp] theorem seq_pure {α : Type} (a : α) : (pure a : M α) = M.pure a := rfl

@[simp] theorem bind_pure_M {α β : Type} (a : α) (f : α → M β) : M.bind (M.pure a) f = f a := rfl

@[simp] theorem bind_ret {α β : Type} (v : String) (e : Option Error) (f : α → M β) :
    M.bind (ret v e) f = ret v e := rfl

@[simp] theorem bind_call {α β : Type} (c : Call) (r : α) (f : α → M β) :
    M.bind (call c r) f = ((f r).1, c :: (f r).2) := rfl

@[simp] theorem pure_fst {α : Type} (a : α) : (M.pure a).1 = Except.ok a := rfl

@[simp] theorem pure_snd {α : Type} (a : α) : (M.pure a).2 = [] := rfl

@[simp] theorem bind_ok {α β : Type} (a : α) (t : List Call) (f : α → M β) :
    M.bind (Except.ok a, t) f = ((f a).1, t ++ (f a).2) := rfl

@[simp] theorem bind_error {α β : Type} (r : Ret) (t : List Call) (f : α → M β) :
    M.bind (Except.error r, t) f = (Except.error r, t) := rfl

@[simp] theorem run_ret (v : String) (e : Option Error) : M.run (ret v e) = ⟨v, e, []⟩ := rfl

@[simp] theorem ret_fst {α : Type} (v : String) (e : Option Error) :
    (ret v e : M α).1 = Except.error ⟨v, e⟩ := rfl

@[simp] theorem ret_snd {α : Type} (v : String) (e : Option Error) : (ret v e : M α).2 = [] := rfl

@[simp] theorem run_error (r : Ret) (t : List Call) :
    M.run (Except.error r, t) = ⟨r.val, r.err, t⟩ := rfl

@[simp] theorem run_ok (r : Ret) (t : List Call) :
    M.run (Except.ok r, t) = ⟨r.val, r.err, t⟩ := rfl

@[simp] theorem failOn_none : failOn none = M.pure () := rfl

@[simp] theorem failOn_some (e : Error) : failOn (some e) = ret "" (some e) := rfl

@[simp] theorem failOnWrap_none (msg : String) : failOnWrap none msg = M.pure () := rfl

@[simp] theorem failOnWrap_some (e : Error) (msg : String) :
    failOnWrap (some e) msg = ret "" (some (Error.wrap e msg)) := rfl

@[simp] theorem orFail_ok {α : Type} (a : α) : orFail (Except.ok a) = M.pure a := rfl

@[simp] theorem orFail_error {α : Type} (e : Error) :
    (orFail (Except.error e) : M α) = ret "" (some e) := rfl


/-! ## Pieces that only validate -/

theorem validates_pure {α : Type} (a : α) : Validates (M.pure a) := by
  constructor
  · intro c hc; cases hc
  · intro r hr; cases hr

theorem validates_ret {α : Type} (e : Error) : Validates (ret "" (some e) : M α) := by
  constructor
  · intro c hc; cases hc
  · intro r hr
    cases hr
    exact ⟨rfl, by simp⟩

theorem validates_call {α : Type} (c : Call) (r : α) (hc : c.isWrite = false) :
    Validates (call c r) := by
  constructor
  · intro c' hc'
    simp only [api.call, List.mem_singleton] at hc'
    rw [hc']; exact hc
  · intro r' hr'; cases hr'

theorem validates_bind {α β : Type} {x : M α} {f : α → M β} (hx : Validates x)
    (hf : ∀ a, Validates (f a)) : Validates (M.bind x f) := by
  obtain ⟨x1, x2⟩ := x
  cases x1 with
  | error r =>
    exact ⟨fun c hc => hx.1 c hc, fun r' hr' => by cases hr'; exact hx.2 r rfl⟩
  | ok a =>
    constructor
    · intro c hc
      simp only [M.bind, List.mem_append] at hc
      rcases hc with hc | hc
      · exact hx.1 c hc
      · exact (hf a).1 c hc
    · intro r hr
      exact (hf a).2 r hr

theorem validates_failOn (e : Option Error) : Validates (failOn e) := by
  cases e
  · exact validates_pure ()
  · exact validates_ret _

theorem validates_failOnWrap (e : Option Error) (msg : String) : Validates (failOnWrap e msg) := by
  cases e
  · exact validates_pure ()
  · exact validates_ret _

theorem validates_orFail {α : Type} (r : Except Error α) : Validates (orFail r) := by
  cases r
  · exact validates_ret _
  · exact validates_pure _

/-- The staging of UpdatePlaybook only validates. -/
theorem stage_validates (env : Env) (userID : String) (pb : Playbook) (id : String)
    (u : Updates) : Validates (UpdatePlaybook.stage env userID pb id u) := by
  unfold UpdatePlaybook.stage
  simp only [seq_bind, seq_pure]
  repeat' first
    | with_reducible exact validates_pure _
    | with_reducible exact validates_ret _
    | with_reducible exact validates_failOn _
    | with_reducible exact validates_failOnWrap _ _
    | (with_reducible refine validates_call _ _ ?_) <;> rfl
    | with_reducible apply validates_bind
    | intro _
    | split


/-! ## UpdatePlaybook after the staging -/

/-- The archived error of the mutations. -/
theorem UpdatePlaybook_archived (env : Env) (pb : Playbook) (args : UpdatePlaybookArgs)
    (hctx : env.getContext = none) (hget : env.Get args.ID = Except.ok pb)
    (harch : pb.DeleteAt ≠ 0) :
    UpdatePlaybook env args
      = ⟨"", some (Error.new "archived playbooks can not be modified"), [Call.Get args.ID]⟩ := by
  simp [UpdatePlaybook, getContext, hctx, hget, harch]

/-- A staging that returns ends the mutation with that return. -/
theorem UpdatePlaybook_stage_error (env : Env) (pb : Playbook) (args : UpdatePlaybookArgs)
    (r : Ret) (t : List Call)
    (hctx : env.getContext = none) (hget : env.Get args.ID = Except.ok pb)
    (hact : pb.DeleteAt = 0) (hman : env.PlaybookManageProperties env.userID pb = none)
    (hst : UpdatePlaybook.stage env env.userID pb args.ID args.Updates = (Except.error r, t)) :
    UpdatePlaybook env args
      = ⟨r.val, r.err,
          Call.Get args.ID :: Call.PlaybookManageProperties env.userID pb :: t⟩ := by
  simp [UpdatePlaybook, getContext, hctx, hget, hact, hman, hst]

/-- An empty staged change set: no write of the change set, the favorite toggle follows. -/
theorem UpdatePlaybook_stage_empty (env : Env) (pb : Playbook) (args : UpdatePlaybookArgs)
    (t : List Call)
    (hctx : env.getContext = none) (hget : env.Get args.ID = Except.ok pb)
    (hact : pb.DeleteAt = 0) (hman : env.PlaybookManageProperties env.userID pb = none)
    (hst : UpdatePlaybook.stage env env.userID pb args.ID args.Updates = (Except.ok [], t)) :
    UpdatePlaybook env args
      = toggled env pb args
          (Call.Get args.ID :: Call.PlaybookManageProperties env.userID pb :: t) := by
  simp only [UpdatePlaybook, getContext, hctx, hget, hact, hman, hst, toggled,
    UpdatePlaybook.favorite, seq_bind, seq_pure, failOn_none, bind_pure_M, orFail_ok, bind_call,
    bind_ok, ne_eq, not_true_eq_false, if_false, List.length_nil, gt_iff_lt, lt_self_iff_false]
  rcases args.Updates.IsFavorite with _ | _ | _
  · simp [M.pure, ret]
  · cases env.DeleteFavorite ⟨pb.ID, PlaybookItemType⟩ pb.TeamID env.userID <;>
      simp [M.pure, ret, call]
  · cases env.AddFavorite ⟨pb.ID, PlaybookItemType⟩ pb.TeamID env.userID <;>
      simp [M.pure, ret, call]

/-- A non-empty staged change set is written once; only a successful write is followed by the
favorite toggle. -/
theorem UpdatePlaybook_stage_write (env : Env) (pb : Playbook) (args : UpdatePlaybookArgs)
    (s : Setmap) (t : List Call)
    (hctx : env.getContext = none) (hget : env.Get args.ID = Except.ok pb)
    (hact : pb.DeleteAt = 0) (hman : env.PlaybookManageProperties env.userID pb = none)
    (hst : UpdatePlaybook.stage env env.userID pb args.ID args.Updates = (Except.ok s, t))
    (hs : s ≠ []) :
    UpdatePlaybook env args
      = match env.GraphqlUpdate args.ID s with
        | some e =>
          ⟨"", some e, Call.Get args.ID :: Call.PlaybookManageProperties env.userID pb ::
            (t ++ [Call.GraphqlUpdate args.ID s])⟩
        | none =>
          toggled env pb args (Call.Get args.ID :: Call.PlaybookManageProperties env.userID pb ::
            (t ++ [Call.GraphqlUpdate args.ID s])) := by
  have hlen : 0 < s.length := List.length_pos.mpr hs
  simp only [UpdatePlaybook, getContext, hctx, hget, hact, hman, hst, toggled,
    UpdatePlaybook.favorite, seq_bind, seq_pure, failOn_none, bind_pure_M, orFail_ok, bind_call,
    bind_ok, ne_eq, not_true_eq_false, if_false, gt_iff_lt, hlen, if_true]
  cases env.GraphqlUpdate args.ID s with
  | some e => simp [M.pure, ret, call]
  | none =>
    rcases args.Updates.IsFavorite with _ | _ | _
    · simp [M.pure, ret, call]
    · cases env.DeleteFavorite ⟨pb.ID, PlaybookItemType⟩ pb.TeamID env.userID <;>
        simp [M.pure, ret, call]
    · cases env.AddFavorite ⟨pb.ID, PlaybookItemType⟩ pb.TeamID env.userID <;>
        simp [M.pure, ret, call]


/-! ## Returned identifiers -/

theorem UpdatePlaybook_val (env : Env) (args : UpdatePlaybookArgs) :
    (UpdatePlaybook env args).val
      = if (UpdatePlaybook env args).err = none then args.ID else "" := by
  rcases hctx : env.getContext with _ | e
  · rcases hget : env.Get args.ID with e | pb
    · simp [UpdatePlaybook, getContext, hctx, hget]
    · by_cases hact : pb.DeleteAt = 0
      · rcases hman : env.PlaybookManageProperties env.userID pb with _ | e
        · rcases hst : UpdatePlaybook.stage env env.userID pb args.ID args.Updates with ⟨r | s, t⟩
          · have hv := (stage_validates env env.userID pb args.ID args.Updates).2 r (by rw [hst])
            rw [UpdatePlaybook_stage_error env pb args r t hctx hget hact hman hst]
            simp [hv.1, hv.2]
          · by_cases hs : s = []
            · subst hs
              rw [UpdatePlaybook_stage_empty env pb args t hctx hget hact hman hst]
              unfold toggled
              repeat' split
              all_goals simp_all
            · rw [UpdatePlaybook_stage_write env pb args s t hctx hget hact hman hst hs]
              unfold toggled
              repeat' split
              all_goals simp_all
        · simp [UpdatePlaybook, getContext, hctx, hget, hact, hman]
      · simp [UpdatePlaybook, getContext, hctx, hget, hact]
  · simp [UpdatePlaybook, getContext, hctx]

theorem AddPlaybookMember_val (env : Env) (args : MemberArgs) :
    (AddPlaybookMember env args).val = "" := by
  rcases hctx : env.getContext with _ | e
  · rcases hget : env.Get args.PlaybookID with e | pb
    · simp [AddPlaybookMember, getContext, hctx, hget]
    · by_cases hact : pb.DeleteAt = 0
      · rcases hman : env.PlaybookManageMembers env.userID pb with _ | e
        · rcases hw : env.AddPlaybookMember args.PlaybookID args.UserID with _ | e <;>
            simp [AddPlaybookMember, getContext, hctx, hget, hact, hman, hw]
        · simp [AddPlaybookMember, getContext, hctx, hget, hact, hman]
      · simp [AddPlaybookMember, getContext, hctx, hget, hact]
  · simp [AddPlaybookMember, getContext, hctx]

theorem RemovePlaybookMember_val (env : Env) (args : MemberArgs) :
    (RemovePlaybookMember env args).val = "" := by
  rcases hctx : env.getContext with _ | e
  · rcases hget : env.Get args.PlaybookID with e | pb
    · simp [RemovePlaybookMember, getContext, hctx, hget]
    · by_cases hact : pb.DeleteAt = 0
      · rcases hman : env.PlaybookManageMembers env.userID pb with _ | e
        · rcases hw : env.RemovePlaybookMember args.PlaybookID args.UserID with _ | e <;>
            simp [RemovePlaybookMember, getContext, hctx, hget, hact, hman, hw]
        · simp [RemovePlaybookMember, getContext, hctx, hget, hact, hman]
      · simp [RemovePlaybookMember, getContext, hctx, hget, hact]
  · simp [RemovePlaybookMember, getContext, hctx]

theorem AddMetric_val (env : Env) (args : AddMetricArgs) :
    (AddMetric env args).val = if (AddMetric env args).err = none then args.PlaybookID else "" := by
  rcases hctx : env.getContext with _ | e
  · rcases hget : env.Get args.PlaybookID with e | pb
    · simp [AddMetric, getContext, hctx, hget]
    · by_cases hact : pb.DeleteAt = 0
      · rcases hman : env.PlaybookManageProperties env.userID pb with _ | e
        · simp only [AddMetric, getContext, hctx, hget, hact, hman, seq_bind, seq_pure,
            failOn_none, bind_pure_M, orFail_ok, bind_call, ne_eq, not_true_eq_false, if_false]
          rcases env.AddMetric args.PlaybookID _ with _ | e <;> simp
        · simp [AddMetric, getContext, hctx, hget, hact, hman]
      · simp [AddMetric, getContext, hctx, hget, hact]
  · simp [AddMetric, getContext, hctx]

theorem UpdateMetric_val (env : Env) (args : UpdateMetricArgs) :
    (UpdateMetric env args).val = if (UpdateMetric env args).err = none then args.ID else "" := by
  rcases hctx : env.getContext with _ | e
  · rcases hmet : env.GetMetric args.ID with e | metric
    · simp [UpdateMetric, getContext, hctx, hmet]
    · rcases hget : env.Get metric.PlaybookID with e | pb
      · simp [UpdateMetric, getContext, hctx, hmet, hget]
      · by_cases hact : pb.DeleteAt = 0
        · rcases hman : env.PlaybookManageProperties env.userID pb with _ | e
          · simp only [UpdateMetric, getContext, hctx, hmet, hget, hact, hman, seq_bind, seq_pure,
              failOn_none, bind_pure_M, orFail_ok, bind_call, ne_eq, not_true_eq_false, if_false]
            generalize UpdateMetric.stage env args = s
            by_cases hlen : 0 < s.length
            · rcases env.UpdateMetric args.ID s with _ | e <;> simp [hlen]
            · simp [hlen]
          · simp [UpdateMetric, getContext, hctx, hmet, hget, hact, hman]
        · simp [UpdateMetric, getContext, hctx, hmet, hget, hact]
  · simp [UpdateMetric, getContext, hctx]

theorem DeleteMetric_val (env : Env) (args : DeleteMetricArgs) :
    (DeleteMetric env args).val = if (DeleteMetric env args).err = none then args.ID else "" := by
  rcases hctx : env.getContext with _ | e
  · rcases hmet : env.GetMetric args.ID with e | metric
    · simp [DeleteMetric, getContext, hctx, hmet]
    · rcases hget : env.Get metric.PlaybookID with e | pb
      · simp [DeleteMetric, getContext, hctx, hmet, hget]
      · rcases hman : env.PlaybookManageProperties env.userID pb with _ | e
        · rcases hw : env.DeleteMetric args.ID with _ | e <;>
            simp [DeleteMetric, getContext, hctx, hmet, hget, hman, hw]
        · simp [DeleteMetric, getContext, hctx, hmet, hget, hman]
  · simp [DeleteMetric, getContext, hctx]

/-! ## Archived playbooks -/

/-- C1: on an archived playbook (DeleteAt non-zero), UpdatePlaybook, AddPlaybookMember,
RemovePlaybookMember, AddMetric and UpdateMetric each return a non-nil error and make no write,
for every argument and actor; when the request context is present the error is "archived
playbooks can not be modified" and the only calls made are the reads that load the playbook (and
the metric). -/
theorem archived_playbook_rejects_mutations (env : Env) (pb : Playbook)
    (metric : PlaybookMetricConfig) (up : UpdatePlaybookArgs) (am rm : MemberArgs)
    (addm : AddMetricArgs) (updm : UpdateMetricArgs)
    (harch : pb.DeleteAt ≠ 0)
    (hup : env.Get up.ID = Except.ok pb)
    (ham : env.Get am.PlaybookID = Except.ok pb)
    (hrm : env.Get rm.PlaybookID = Except.ok pb)
    (haddm : env.Get addm.PlaybookID = Except.ok pb)
    (hmetric : env.GetMetric updm.ID = Except.ok metric)
    (hupdm : env.Get metric.PlaybookID = Except.ok pb) :
    ((UpdatePlaybook env up).err ≠ none ∧ (UpdatePlaybook env up).writes = []
      ∧ (env.getContext = none → UpdatePlaybook env up
          = ⟨"", some (Error.new "archived playbooks can not be modified"), [Call.Get up.ID]⟩))
    ∧ ((AddPlaybookMember env am).err ≠ none ∧ (AddPlaybookMember env am).writes = []
      ∧ (env.getContext = none → AddPlaybookMember env am
          = ⟨"", some (Error.new "archived playbooks can not be modified"),
              [Call.Get am.PlaybookID]⟩))
    ∧ ((RemovePlaybookMember env rm).err ≠ none ∧ (RemovePlaybookMember env rm).writes = []
      ∧ (env.getContext = none → RemovePlaybookMember env rm
          = ⟨"", some (Error.new "archived playbooks can not be modified"),
              [Call.Get rm.PlaybookID]⟩))
    ∧ ((AddMetric env addm).err ≠ none ∧ (AddMetric env addm).writes = []
      ∧ (env.getContext = none → AddMetric env addm
          = ⟨"", some (Error.new "archived playbooks can not be modified"),
              [Call.Get addm.PlaybookID]⟩))
    ∧ ((UpdateMetric env updm).err ≠ none ∧ (UpdateMetric env updm).writes = []
      ∧ (env.getContext = none → UpdateMetric env updm
          = ⟨"", some (Error.new "archived playbooks can not be modified"),
              [Call.GetMetric updm.ID, Call.Get metric.PlaybookID]⟩)) := by
  rcases hctx : env.getContext with _ | e
  · have h1 : UpdatePlaybook env up
        = ⟨"", some (Error.new "archived playbooks can not be modified"), [Call.Get up.ID]⟩ :=
      UpdatePlaybook_archived env pb up hctx hup harch
    have h2 : AddPlaybookMember env am
        = ⟨"", some (Error.new "archived playbooks can not be modified"),
            [Call.Get am.PlaybookID]⟩ := by
      simp [AddPlaybookMember, getContext, hctx, ham, harch]
    have h3 : RemovePlaybookMember env rm
        = ⟨"", some (Error.new "archived playbooks can not be modified"),
            [Call.Get rm.PlaybookID]⟩ := by
      simp [RemovePlaybookMember, getContext, hctx, hrm, harch]
    have h4 : AddMetric env addm
        = ⟨"", some (Error.new "archived playbooks can not be modified"),
            [Call.Get addm.PlaybookID]⟩ := by
      simp [AddMetric, getContext, hctx, haddm, harch]
    have h5 : UpdateMetric env updm
        = ⟨"", some (Error.new "archived playbooks can not be modified"),
            [Call.GetMetric updm.ID, Call.Get metric.PlaybookID]⟩ := by
      simp [UpdateMetric, getContext, hctx, hmetric, hupdm, harch]
    rw [h1, h2, h3, h4, h5]
    simp [Outcome.writes, Call.isWrite]
  · have h1 : UpdatePlaybook env up = ⟨"", some e, []⟩ := by
      simp [UpdatePlaybook, getContext, hctx]
    have h2 : AddPlaybookMember env am = ⟨"", some e, []⟩ := by
      simp [AddPlaybookMember, getContext, hctx]
    have h3 : RemovePlaybookMember env rm = ⟨"", some e, []⟩ := by
      simp [RemovePlaybookMember, getContext, hctx]
    have h4 : AddMetric env addm = ⟨"", some e, []⟩ := by
      simp [AddMetric, getContext, hctx]
    have h5 : UpdateMetric env updm = ⟨"", some e, []⟩ := by
      simp [UpdateMetric, getContext, hctx]
    rw [h1, h2, h3, h4, h5]
    simp [Outcome.writes]

/-- Witness of C1: the archived playbook `P1`, with the request context present. -/
theorem archived_playbook_rejects_mutations_witness :
    UpdatePlaybook (okEnv archivedP1) ⟨"P1", { noUpdates with Title := some "Runbook" }⟩
        = ⟨"", some (Error.new "archived playbooks can not be modified"), [Call.Get "P1"]⟩
    ∧ AddPlaybookMember (okEnv archivedP1) ⟨"P1", "U2"⟩
        = ⟨"", some (Error.new "archived playbooks can not be modified"), [Call.Get "P1"]⟩
    ∧ RemovePlaybookMember (okEnv archivedP1) ⟨"P1", "U2"⟩
        = ⟨"", some (Error.new "archived playbooks can not be modified"), [Call.Get "P1"]⟩
    ∧ AddMetric (okEnv archivedP1) ⟨"P1", "MTTR", "Mean time to resolve", "metric_duration", none⟩
        = ⟨"", some (Error.new "archived playbooks can not be modified"), [Call.Get "P1"]⟩
    ∧ UpdateMetric (okEnv archivedP1) ⟨"M1", some "MTTA", none, none⟩
        = ⟨"", some (Error.new "archived playbooks can not be modified"),
            [Call.GetMetric "M1", Call.Get "P1"]⟩ := by
  have h := archived_playbook_rejects_mutations (okEnv archivedP1) archivedP1
    ⟨"M1", "P1", "MTTR", "Mean time to resolve", "metric_duration", NullInt.NewInt 0 false⟩
    ⟨"P1", { noUpdates with Title := some "Runbook" }⟩ ⟨"P1", "U2"⟩ ⟨"P1", "U2"⟩
    ⟨"P1", "MTTR", "Mean time to resolve", "metric_duration", none⟩
    ⟨"M1", some "MTTA", none, none⟩ (by decide) rfl rfl rfl rfl rfl rfl
  exact ⟨h.1.2.2 rfl, h.2.1.2.2 rfl, h.2.2.1.2.2 rfl, h.2.2.2.1.2.2 rfl, h.2.2.2.2.2.2 rfl⟩

/-! ## What the mutations return -/

/-- C6, as stated, fails for the member mutations: adding member `U2` to the active playbook `P1`
succeeds (nil error, the store call is made) and returns the empty string, not the identifier
`P1`. -/
theorem AddPlaybookMember_returns_no_identifier :
    AddPlaybookMember (okEnv playbookP1) ⟨"P1", "U2"⟩
        = ⟨"", none, [Call.Get "P1", Call.PlaybookManageMembers "U1" playbookP1,
            Call.AddPlaybookMember "P1" "U2"]⟩
      ∧ (AddPlaybookMember (okEnv playbookP1) ⟨"P1", "U2"⟩).val ≠ "P1" := by
  decide

/-- C6, amended: every mutation returns the empty string together with a non-nil error; with a nil
error UpdatePlaybook returns the playbook ID it was given, AddMetric the playbook ID it was given,
UpdateMetric and DeleteMetric the metric ID they were given, while AddPlaybookMember and
RemovePlaybookMember return the empty string in every case. -/
theorem mutation_return_values (env : Env) (up : UpdatePlaybookArgs) (am rm : MemberArgs)
    (addm : AddMetricArgs) (updm : UpdateMetricArgs) (delm : DeleteMetricArgs) :
    (UpdatePlaybook env up).val = (if (UpdatePlaybook env up).err = none then up.ID else "")
    ∧ (AddPlaybookMember env am).val = ""
    ∧ (RemovePlaybookMember env rm).val = ""
    ∧ (AddMetric env addm).val
        = (if (AddMetric env addm).err = none then addm.PlaybookID else "")
    ∧ (UpdateMetric env updm).val = (if (UpdateMetric env updm).err = none then updm.ID else "")
    ∧ (DeleteMetric env delm).val
        = (if (DeleteMetric env delm).err = none then delm.ID else "") :=
  ⟨UpdatePlaybook_val env up, AddPlaybookMember_val env am, RemovePlaybookMember_val env rm,
    AddMetric_val env addm, UpdateMetric_val env updm, DeleteMetric_val env delm⟩

/-! ## Metrics -/

/-- C7: on an active playbook and for an actor who may manage its properties, AddMetric makes
exactly one write, the store call AddMetric with the playbook ID and a config whose Title,
Description and Type are the arguments; the Target of that config is unset (Valid = false)
exactly when the Target argument is nil, and is otherwise set to the int64 conversion of the
supplied number.  An omitted target is not the set zero, and the Target resolver answers nil for
it. -/
theorem AddMetric_target_tristate (env : Env) (pb : Playbook) (args : AddMetricArgs)
    (hctx : env.getContext = none) (hget : env.Get args.PlaybookID = Except.ok pb)
    (hact : pb.DeleteAt = 0) (hman : env.PlaybookManageProperties env.userID pb = none) :
    ∃ config : PlaybookMetricConfig,
      (AddMetric env args).writes = [Call.AddMetric args.PlaybookID config]
      ∧ config.Title = args.Title ∧ config.Description = args.Description
      ∧ config.Type_ = args.Type_
      ∧ (config.Target.Valid = false ↔ args.Target = none)
      ∧ (∀ f, args.Target = some f → config.Target = ⟨env.int64 f, true⟩)
      ∧ (args.Target = none →
          config.Target ≠ ⟨0, true⟩ ∧ MetricConfigResolver.Target config = none) := by
  refine ⟨⟨"", "", args.Title, args.Description, args.Type_,
    match args.Target with
    | none => NullInt.NewInt 0 false
    | some f => NullInt.IntFrom (env.int64 f)⟩, ?_, rfl, rfl, rfl, ?_, ?_, ?_⟩
  · simp only [AddMetric, getContext, hctx, hget, hact, hman, seq_bind, seq_pure,
      failOn_none, bind_pure_M, orFail_ok, bind_call, ne_eq, not_true_eq_false, if_false]
    rcases env.AddMetric args.PlaybookID _ with _ | e <;>
      simp [Outcome.writes, Call.isWrite] <;> cases args.Target <;> rfl
  · cases args.Target <;> simp [NullInt.NewInt, NullInt.IntFrom]
  · intro f hf
    simp [hf, NullInt.NewInt, NullInt.IntFrom]
  · intro hf
    simp [hf, NullInt.NewInt, MetricConfigResolver.Target]

/-- Witness of C7: the metric "MTTR" without a target, added to the active playbook `P1`. -/
theorem AddMetric_target_tristate_witness :
    ∃ config : PlaybookMetricConfig,
      (AddMetric (okEnv playbookP1)
          ⟨"P1", "MTTR", "Mean time to resolve", "metric_duration", none⟩).writes
        = [Call.AddMetric "P1" config]
      ∧ config.Title = "MTTR" ∧ config.Description = "Mean time to resolve"
      ∧ config.Type_ = "metric_duration"
      ∧ (config.Target.Valid = false ↔ (none : Option Float64) = none)
      ∧ (∀ f, (none : Option Float64) = some f → config.Target = ⟨(okEnv playbookP1).int64 f, true⟩)
      ∧ ((none : Option Float64) = none →
          config.Target ≠ ⟨0, true⟩ ∧ MetricConfigResolver.Target config = none) :=
  AddMetric_target_tristate (okEnv playbookP1) playbookP1
    ⟨"P1", "MTTR", "Mean time to resolve", "metric_duration", none⟩ rfl rfl rfl rfl

/-- C8: DeleteMetric does not enforce the archived rule.  For an existing metric whose parent
playbook is archived and an actor who may manage its properties, DeleteMetric calls the store's
DeleteMetric with the metric ID as its only write and, when the store succeeds, returns the metric
ID with a nil error; AddMetric and UpdateMetric on the same archived playbook fail with the
archived error and write nothing. -/
theorem DeleteMetric_ignores_archived (env : Env) (pb : Playbook) (metric : PlaybookMetricConfig)
    (args : DeleteMetricArgs) (addm : AddMetricArgs) (updm : UpdateMetricArgs)
    (hctx : env.getContext = none) (hmetric : env.GetMetric args.ID = Except.ok metric)
    (hget : env.Get metric.PlaybookID = Except.ok pb) (harch : pb.DeleteAt ≠ 0)
    (hman : env.PlaybookManageProperties env.userID pb = none)
    (haddm : addm.PlaybookID = metric.PlaybookID) (hupdm : updm.ID = args.ID) :
    (DeleteMetric env args).trace
        = [Call.GetMetric args.ID, Call.Get metric.PlaybookID,
            Call.PlaybookManageProperties env.userID pb, Call.DeleteMetric args.ID]
    ∧ (DeleteMetric env args).writes = [Call.DeleteMetric args.ID]
    ∧ (env.DeleteMetric args.ID = none →
        (DeleteMetric env args).val = args.ID ∧ (DeleteMetric env args).err = none)
    ∧ (AddMetric env addm).err = some (Error.new "archived playbooks can not be modified")
    ∧ (AddMetric env addm).writes = []
    ∧ (UpdateMetric env updm).err = some (Error.new "archived playbooks can not be modified")
    ∧ (UpdateMetric env updm).writes = [] := by
  have hadd : AddMetric env addm
      = ⟨"", some (Error.new "archived playbooks can not be modified"),
          [Call.Get addm.PlaybookID]⟩ := by
    simp [AddMetric, getContext, hctx, haddm, hget, harch]
  have hupd : UpdateMetric env updm
      = ⟨"", some (Error.new "archived playbooks can not be modified"),
          [Call.GetMetric updm.ID, Call.Get metric.PlaybookID]⟩ := by
    simp [UpdateMetric, getContext, hctx, hupdm, hmetric, hget, harch]
  refine ⟨?_, ?_, ?_, by rw [hadd], by rw [hadd]; rfl, by rw [hupd], by rw [hupd]; rfl⟩
  · rcases hw : env.DeleteMetric args.ID with _ | e <;>
      simp [DeleteMetric, getContext, hctx, hmetric, hget, hman, hw]
  · rcases hw : env.DeleteMetric args.ID with _ | e <;>
      simp [DeleteMetric, getContext, hctx, hmetric, hget, hman, hw, Outcome.writes,
        Call.isWrite]
  · intro hw
    simp [DeleteMetric, getContext, hctx, hmetric, hget, hman, hw]

/-- Witness of C8: metric `M1` of the archived playbook `P1`. -/
theorem DeleteMetric_ignores_archived_witness :
    (DeleteMetric (okEnv archivedP1) ⟨"M1"⟩).trace
        = [Call.GetMetric "M1", Call.Get "P1",
            Call.PlaybookManageProperties "U1" archivedP1, Call.DeleteMetric "M1"]
    ∧ (DeleteMetric (okEnv archivedP1) ⟨"M1"⟩).writes = [Call.DeleteMetric "M1"]
    ∧ ((okEnv archivedP1).DeleteMetric "M1" = none →
        (DeleteMetric (okEnv archivedP1) ⟨"M1"⟩).val = "M1"
          ∧ (DeleteMetric (okEnv archivedP1) ⟨"M1"⟩).err = none)
    ∧ (AddMetric (okEnv archivedP1) ⟨"P1", "MTTA", "", "metric_duration", none⟩).err
        = some (Error.new "archived playbooks can not be modified")
    ∧ (AddMetric (okEnv archivedP1) ⟨"P1", "MTTA", "", "metric_duration", none⟩).writes = []
    ∧ (UpdateMetric (okEnv archivedP1) ⟨"M1", some "MTTA", none, none⟩).err
        = some (Error.new "archived playbooks can not be modified")
    ∧ (UpdateMetric (okEnv archivedP1) ⟨"M1", some "MTTA", none, none⟩).writes = [] :=
  DeleteMetric_ignores_archived (okEnv archivedP1) archivedP1
    ⟨"M1", "P1", "MTTR", "Mean time to resolve", "metric_duration", NullInt.NewInt 0 false⟩
    ⟨"M1"⟩ ⟨"P1", "MTTA", "", "metric_duration", none⟩ ⟨"M1", some "MTTA", none, none⟩
    rfl rfl rfl (by decide) rfl rfl rfl

/-! ## When the staged change set is empty -/

theorem setmap_set_ne_nil (s : Setmap) (k : String) (v : Value) : Setmap.set s k v ≠ [] := by
  cases s with
  | nil => simp [Setmap.set]
  | cons p rest =>
    obtain ⟨k', v'⟩ := p
    simp only [Setmap.set]
    split <;> simp

theorem addToSetmap_eq_nil (s : Setmap) (k : String) (v : Option Value) :
    addToSetmap s k v = [] ↔ s = [] ∧ v = none := by
  cases v with
  | none => simp [addToSetmap]
  | some x => simp [addToSetmap, setmap_set_ne_nil]

theorem setsKey_pure (s : Setmap) (hs : s ≠ []) : SetsKey (M.pure s) := by
  intro a t h
  cases h
  exact hs

theorem setsKey_ret (v : String) (e : Option Error) : SetsKey (ret v e) := by
  intro a t h
  cases h

theorem bind_eq_ok {α β : Type} {x : M α} {f : α → M β} {b : β} {t : List Call}
    (h : M.bind x f = (Except.ok b, t)) :
    ∃ a t1 t2, x = (Except.ok a, t1) ∧ f a = (Except.ok b, t2) ∧ t = t1 ++ t2 := by
  obtain ⟨x1, x2⟩ := x
  cases x1 with
  | error r => cases h
  | ok a =>
    have h' := Prod.mk.inj h
    exact ⟨a, x2, (f a).2, rfl, Prod.ext h'.1 rfl, h'.2.symm⟩

theorem setsKey_bind {α : Type} (x : M α) (f : α → M Setmap) (hf : ∀ a, SetsKey (f a)) :
    SetsKey (M.bind x f) := by
  intro a t h
  obtain ⟨a', t1, t2, -, h2, -⟩ := bind_eq_ok h
  exact hf a' a t2 h2

/-- One optional field of the staging: skipped when not supplied, and staged under a key when
supplied and accepted. -/
theorem step_nil_iff {β : Type} (o : Option β) (s0 : Setmap) (m : M Setmap) (a : Setmap)
    (t : List Call) (hm : m = (Except.ok a, t)) (hnone : o = none → m = M.pure s0)
    (hsome : ∀ v, o = some v → SetsKey m) : a = [] ↔ s0 = [] ∧ o = none := by
  cases ho : o with
  | none =>
    rw [hnone ho] at hm
    cases hm
    simp
  | some v =>
    have := hsome v ho a t hm
    simp [this]

/-- A change set that the staging hands on is empty exactly when the request supplies no field
other than IsFavorite. -/
theorem stage_nil_iff (env : Env) (userID : String) (pb : Playbook) (id : String)
    (u : Updates) (s : Setmap) (t : List Call)
    (hst : UpdatePlaybook.stage env userID pb id u = (Except.ok s, t)) :
    s = [] ↔ ∀ f, f ≠ Field.IsFavorite → u.supplied f = false := by
  unfold UpdatePlaybook.stage at hst
  simp only [seq_bind, seq_pure] at hst
  obtain ⟨a1, t1, r1, h1, hst, -⟩ := bind_eq_ok hst
  have e1 := step_nil_iff u.Public _ _ a1 t1 h1 (fun h => by rw [h])
    (fun v h => by
      rw [h]
      dsimp only
      repeat' first
        | with_reducible exact setsKey_ret _ _
        | (with_reducible refine setsKey_pure _ ?_) <;>
            simp [addToSetmap, addConcatToSetmap, setmap_set_ne_nil]
        | with_reducible apply setsKey_bind
        | split
        | intro _)
  clear h1
  obtain ⟨a2, t2, r2, h2, hst, -⟩ := bind_eq_ok hst
  have e2 := step_nil_iff u.InvitedUserIDs _ _ a2 t2 h2 (fun h => by rw [h])
    (fun v h => by
      rw [h]
      dsimp only
      repeat' first
        | with_reducible exact setsKey_ret _ _
        | (with_reducible refine setsKey_pure _ ?_) <;>
            simp [addToSetmap, addConcatToSetmap, setmap_set_ne_nil]
        | with_reducible apply setsKey_bind
        | split
        | intro _)
  clear h2
  obtain ⟨a3, t3, r3, h3, hst, -⟩ := bind_eq_ok hst
  have e3 := step_nil_iff u.InvitedGroupIDs _ _ a3 t3 h3 (fun h => by rw [h])
    (fun v h => by
      rw [h]
      dsimp only
      repeat' first
        | with_reducible exact setsKey_ret _ _
        | (with_reducible refine setsKey_pure _ ?_) <;>
            simp [addToSetmap, addConcatToSetmap, setmap_set_ne_nil]
        | with_reducible apply setsKey_bind
        | split
        | intro _)
  clear h3
  obtain ⟨a4, t4, r4, h4, hst, -⟩ := bind_eq_ok hst
  have e4 := step_nil_iff u.DefaultOwnerID _ _ a4 t4 h4 (fun h => by rw [h])
    (fun v h => by
      rw [h]
      dsimp only
      repeat' first
        | with_reducible exact setsKey_ret _ _
        | (with_reducible refine setsKey_pure _ ?_) <;>
            simp [addToSetmap, addConcatToSetmap, setmap_set_ne_nil]
        | with_reducible apply setsKey_bind
        | split
        | intro _)
  clear h4
  obtain ⟨a5, t5, r5, h5, hst, -⟩ := bind_eq_ok hst
  have e5 := step_nil_iff u.BroadcastChannelIDs _ _ a5 t5 h5 (fun h => by rw [h])
    (fun v h => by
      rw [h]
      dsimp only
      repeat' first
        | with_reducible exact setsKey_ret _ _
        | (with_reducible refine setsKey_pure _ ?_) <;>
            simp [addToSetmap, addConcatToSetmap, setmap_set_ne_nil]
        | with_reducible apply setsKey_bind
        | split
        | intro _)
  clear h5
  obtain ⟨a6, t6, r6, h6, hst, -⟩ := bind_eq_ok hst
  have e6 := step_nil_iff u.WebhookOnCreationURLs _ _ a6 t6 h6 (fun h => by rw [h])
    (fun v h => by
      rw [h]
      dsimp only
      repeat' first
        | with_reducible exact setsKey_ret _ _
        | (with_reducible refine setsKey_pure _ ?_) <;>
            simp [addToSetmap, addConcatToSetmap, setmap_set_ne_nil]
        | with_reducible apply setsKey_bind
        | split
        | intro _)
  clear h6
  obtain ⟨a7, t7, r7, h7, hst, -⟩ := bind_eq_ok hst
  have e7 := step_nil_iff u.WebhookOnStatusUpdateURLs _ _ a7 t7 h7 (fun h => by rw [h])
    (fun v h => by
      rw [h]
      dsimp only
      repeat' first
        | with_reducible exact setsKey_ret _ _
        | (with_reducible refine setsKey_pure _ ?_) <;>
            simp [addToSetmap, addConcatToSetmap, setmap_set_ne_nil]
        | with_reducible apply setsKey_bind
        | split
        | intro _)
  clear h7
  obtain ⟨a8, t8, r8, h8, hst, -⟩ := bind_eq_ok hst
  have e8 := step_nil_iff u.SignalAnyKeywords _ _ a8 t8 h8 (fun h => by rw [h])
    (fun v h => by
      rw [h]
      dsimp only
      repeat' first
        | with_reducible exact setsKey_ret _ _
        | (with_reducible refine setsKey_pure _ ?_) <;>
            simp [addToSetmap, addConcatToSetmap, setmap_set_ne_nil]
        | with_reducible apply setsKey_bind
        | split
        | intro _)
  clear h8
  obtain ⟨a9, t9, r9, h9, hst, -⟩ := bind_eq_ok hst
  have e9 := step_nil_iff u.CategoryName _ _ a9 t9 h9 (fun h => by rw [h])
    (fun v h => by
      rw [h]
      dsimp only
      repeat' first
        | with_reducible exact setsKey_ret _ _
        | (with_reducible refine setsKey_pure _ ?_) <;>
            simp [addToSetmap, addConcatToSetmap, setmap_set_ne_nil]
        | with_reducible apply setsKey_bind
        | split
        | intro _)
  clear h9
  have e10 := step_nil_iff u.Checklists _ _ s _ hst (fun h => by rw [h])
    (fun v h => by
      rw [h]
      dsimp only
      repeat' first
        | with_reducible exact setsKey_ret _ _
        | (with_reducible refine setsKey_pure _ ?_) <;>
            simp [addToSetmap, addConcatToSetmap, setmap_set_ne_nil]
        | with_reducible apply setsKey_bind
        | split
        | intro _)
  clear hst
  simp only [addToSetmap_eq_nil, Option.map_eq_none', true_and] at e1 e2 e3 e4 e5 e6 e7 e8 e9 e10
  rw [e10, e9, e8, e7, e6, e5, e4, e3, e2, e1]
  clear e1 e2 e3 e4 e5 e6 e7 e8 e9 e10
  constructor
  · intro h f hf
    cases f <;> first | exact absurd rfl hf | simp [Updates.supplied, h]
  · intro h
    have g0 := h Field.Title (by decide)
    have g1 := h Field.Description (by decide)
    have g2 := h Field.Public (by decide)
    have g3 := h Field.CreatePublicPlaybookRun (by decide)
    have g4 := h Field.ReminderMessageTemplate (by decide)
    have g5 := h Field.ReminderTimerDefaultSeconds (by decide)
    have g6 := h Field.StatusUpdateEnabled (by decide)
    have g7 := h Field.InvitedUserIDs (by decide)
    have g8 := h Field.InvitedGroupIDs (by decide)
    have g9 := h Field.InviteUsersEnabled (by decide)
    have g10 := h Field.DefaultOwnerID (by decide)
    have g11 := h Field.DefaultOwnerEnabled (by decide)
    have g12 := h Field.BroadcastChannelIDs (by decide)
    have g13 := h Field.BroadcastEnabled (by decide)
    have g14 := h Field.WebhookOnCreationURLs (by decide)
    have g15 := h Field.WebhookOnCreationEnabled (by decide)
    have g16 := h Field.MessageOnJoin (by decide)
    have g17 := h Field.MessageOnJoinEnabled (by decide)
    have g18 := h Field.RetrospectiveReminderIntervalSeconds (by decide)
    have g19 := h Field.RetrospectiveTemplate (by decide)
    have g20 := h Field.RetrospectiveEnabled (by decide)
    have g21 := h Field.WebhookOnStatusUpdateURLs (by decide)
    have g22 := h Field.WebhookOnStatusUpdateEnabled (by decide)
    have g23 := h Field.SignalAnyKeywords (by decide)
    have g24 := h Field.SignalAnyKeywordsEnabled (by decide)
    have g25 := h Field.CategorizeChannelEnabled (by decide)
    have g26 := h Field.CategoryName (by decide)
    have g27 := h Field.RunSummaryTemplateEnabled (by decide)
    have g28 := h Field.RunSummaryTemplate (by decide)
    have g29 := h Field.ChannelNameTemplate (by decide)
    have g30 := h Field.Checklists (by decide)
    simp [Updates.supplied] at g0 g1 g2 g3 g4 g5 g6 g7 g8 g9 g10 g11 g12 g13 g14 g15 g16 g17 g18 g19 g20 g21 g22 g23 g24 g25 g26 g27 g28 g29 g30
    simp [*]

/-! ## The calls of the staging -/

theorem isWrite_of_isGraphqlUpdate (c : Call) (h : c.isGraphqlUpdate = true) :
    c.isWrite = true := by
  cases c <;> first | rfl | cases h

theorem isWrite_of_isFavorite (c : Call) (h : c.isFavorite = true) : c.isWrite = true := by
  cases c <;> first | rfl | cases h

/-- The staging calls neither GraphqlUpdate nor the favorite service. -/
theorem stage_trace_quiet (env : Env) (userID : String) (pb : Playbook) (id : String)
    (u : Updates) (r : Except Ret Setmap) (t : List Call)
    (hst : UpdatePlaybook.stage env userID pb id u = (r, t)) :
    t.filter Call.isGraphqlUpdate = [] ∧ t.filter Call.isFavorite = []
      ∧ t.filter Call.isWrite = [] := by
  have hv := (stage_validates env userID pb id u).1
  rw [hst] at hv
  refine ⟨?_, ?_, ?_⟩
  · rw [List.filter_eq_nil_iff]
    intro c hc hg
    have := hv c hc
    rw [isWrite_of_isGraphqlUpdate c hg] at this
    cases this
  · rw [List.filter_eq_nil_iff]
    intro c hc hg
    have := hv c hc
    rw [isWrite_of_isFavorite c hg] at this
    cases this
  · rw [List.filter_eq_nil_iff]
    intro c hc hg
    have := hv c hc
    rw [hg] at this
    cases this



/-- With exactly one field supplied, a change-set field other than Public whose own check passes,
the staging succeeds with a change set of exactly one entry, under the key of that field. -/
theorem stage_single_field (env : Env) (userID : String) (pb : Playbook) (id : String)
    (u : Updates) (X : Field) (k : String)
    (honly : ∀ f, u.supplied f = decide (f = X))
    (hkey : X.key = some k) (hX : X ≠ Field.Public)
    (howner : ∀ owner, u.DefaultOwnerID = some owner →
      env.HasPermissionToTeam owner pb.TeamID PermissionViewTeam = true)
    (hbroadcast : ∀ ids, u.BroadcastChannelIDs = some ids →
      env.NoAddedBroadcastChannelsWithoutPermission userID ids pb.BroadcastChannelIDs = none)
    (hcreation : ∀ urls, u.WebhookOnCreationURLs = some urls → env.ValidateWebhookURLs urls = none)
    (hstatus : ∀ urls, u.WebhookOnStatusUpdateURLs = some urls →
      env.ValidateWebhookURLs urls = none)
    (hcategory : ∀ name, u.CategoryName = some name → env.ValidateCategoryName name = none)
    (hjson : ∀ checklists, u.Checklists = some checklists →
      ∃ b, env.jsonMarshal checklists = Except.ok b) :
    ∃ v t, UpdatePlaybook.stage env userID pb id u = (Except.ok [(k, v)], t)
      ∧ ∀ title, u.Title = some title → v = Value.str title := by
  have h0 := honly Field.Title
  have h1 := honly Field.Description
  have h2 := honly Field.Public
  have h3 := honly Field.CreatePublicPlaybookRun
  have h4 := honly Field.ReminderMessageTemplate
  have h5 := honly Field.ReminderTimerDefaultSeconds
  have h6 := honly Field.StatusUpdateEnabled
  have h7 := honly Field.InvitedUserIDs
  have h8 := honly Field.InvitedGroupIDs
  have h9 := honly Field.InviteUsersEnabled
  have h10 := honly Field.DefaultOwnerID
  have h11 := honly Field.DefaultOwnerEnabled
  have h12 := honly Field.BroadcastChannelIDs
  have h13 := honly Field.BroadcastEnabled
  have h14 := honly Field.WebhookOnCreationURLs
  have h15 := honly Field.WebhookOnCreationEnabled
  have h16 := honly Field.MessageOnJoin
  have h17 := honly Field.MessageOnJoinEnabled
  have h18 := honly Field.RetrospectiveReminderIntervalSeconds
  have h19 := honly Field.RetrospectiveTemplate
  have h20 := honly Field.RetrospectiveEnabled
  have h21 := honly Field.WebhookOnStatusUpdateURLs
  have h22 := honly Field.WebhookOnStatusUpdateEnabled
  have h23 := honly Field.SignalAnyKeywords
  have h24 := honly Field.SignalAnyKeywordsEnabled
  have h25 := honly Field.CategorizeChannelEnabled
  have h26 := honly Field.CategoryName
  have h27 := honly Field.RunSummaryTemplateEnabled
  have h28 := honly Field.RunSummaryTemplate
  have h29 := honly Field.ChannelNameTemplate
  have h30 := honly Field.Checklists
  have h31 := honly Field.IsFavorite
  cases X <;> simp [Field.key] at hkey hX <;> subst hkey <;>
    simp [Updates.supplied] at h0 h1 h2 h3 h4 h5 h6 h7 h8 h9 h10 h11 h12 h13 h14 h15 h16 h17 h18 h19 h20 h21 h22 h23 h24 h25 h26 h27 h28 h29 h30 h31
  case Title =>
    obtain ⟨x, hx⟩ := Option.isSome_iff_exists.mp h0
    simp [UpdatePlaybook.stage, addToSetmap, addConcatToSetmap, Setmap.set, M.pure, call, h1, h2, h3, h4, h5, h6, h7, h8, h9, h10, h11, h12, h13, h14, h15, h16, h17, h18, h19, h20, h21, h22, h23, h24, h25, h26, h27, h28, h29, h30, h31, hx]
    try exact ⟨_, _, rfl⟩
  case Description =>
    obtain ⟨x, hx⟩ := Option.isSome_iff_exists.mp h1
    simp [UpdatePlaybook.stage, addToSetmap, addConcatToSetmap, Setmap.set, M.pure, call, h0, h2, h3, h4, h5, h6, h7, h8, h9, h10, h11, h12, h13, h14, h15, h16, h17, h18, h19, h20, h21, h22, h23, h24, h25, h26, h27, h28, h29, h30, h31, hx]
    try exact ⟨_, _, rfl⟩
  case CreatePublicPlaybookRun =>
    obtain ⟨x, hx⟩ := Option.isSome_iff_exists.mp h3
    simp [UpdatePlaybook.stage, addToSetmap, addConcatToSetmap, Setmap.set, M.pure, call, h0, h1, h2, h4, h5, h6, h7, h8, h9, h10, h11, h12, h13, h14, h15, h16, h17, h18, h19, h20, h21, h22, h23, h24, h25, h26, h27, h28, h29, h30, h31, hx]
    try exact ⟨_, _, rfl⟩
  case ReminderMessageTemplate =>
    obtain ⟨x, hx⟩ := Option.isSome_iff_exists.mp h4
    simp [UpdatePlaybook.stage, addToSetmap, addConcatToSetmap, Setmap.set, M.pure, call, h0, h1, h2, h3, h5, h6, h7, h8, h9, h10, h11, h12, h13, h14, h15, h16, h17, h18, h19, h20, h21, h22, h23, h24, h25, h26, h27, h28, h29, h30, h31, hx]
    try exact ⟨_, _, rfl⟩
  case ReminderTimerDefaultSeconds =>
    obtain ⟨x, hx⟩ := Option.isSome_iff_exists.mp h5
    simp [UpdatePlaybook.stage, addToSetmap, addConcatToSetmap, Setmap.set, M.pure, call, h0, h1, h2, h3, h4, h6, h7, h8, h9, h10, h11, h12, h13, h14, h15, h16, h17, h18, h19, h20, h21, h22, h23, h24, h25, h26, h27, h28, h29, h30, h31, hx]
    try exact ⟨_, _, rfl⟩
  case StatusUpdateEnabled =>
    obtain ⟨x, hx⟩ := Option.isSome_iff_exists.mp h6
    simp [UpdatePlaybook.stage, addToSetmap, addConcatToSetmap, Setmap.set, M.pure, call, h0, h1, h2, h3, h4, h5, h7, h8, h9, h10, h11, h12, h13, h14, h15, h16, h17, h18, h19, h20, h21, h22, h23, h24, h25, h26, h27, h28, h29, h30, h31, hx]
    try exact ⟨_, _, rfl⟩
  case InvitedUserIDs =>
    obtain ⟨x, hx⟩ := Option.isSome_iff_exists.mp h7
    simp [UpdatePlaybook.stage, addToSetmap, addConcatToSetmap, Setmap.set, M.pure, call, h0, h1, h2, h3, h4, h5, h6, h8, h9, h10, h11, h12, h13, h14, h15, h16, h17, h18, h19, h20, h21, h22, h23, h24, h25, h26, h27, h28, h29, h30, h31, hx]
    try exact ⟨_, _, rfl⟩
  case InvitedGroupIDs =>
    obtain ⟨x, hx⟩ := Option.isSome_iff_exists.mp h8
    simp [UpdatePlaybook.stage, addToSetmap, addConcatToSetmap, Setmap.set, M.pure, call, h0, h1, h2, h3, h4, h5, h6, h7, h9, h10, h11, h12, h13, h14, h15, h16, h17, h18, h19, h20, h21, h22, h23, h24, h25, h26, h27, h28, h29, h30, h31, hx]
    try exact ⟨_, _, rfl⟩
  case InviteUsersEnabled =>
    obtain ⟨x, hx⟩ := Option.isSome_iff_exists.mp h9
    simp [UpdatePlaybook.stage, addToSetmap, addConcatToSetmap, Setmap.set, M.pure, call, h0, h1, h2, h3, h4, h5, h6, h7, h8, h10, h11, h12, h13, h14, h15, h16, h17, h18, h19, h20, h21, h22, h23, h24, h25, h26, h27, h28, h29, h30, h31, hx]
    try exact ⟨_, _, rfl⟩
  case DefaultOwnerID =>
    obtain ⟨x, hx⟩ := Option.isSome_iff_exists.mp h10
    simp [UpdatePlaybook.stage, addToSetmap, addConcatToSetmap, Setmap.set, M.pure, call, h0, h1, h2, h3, h4, h5, h6, h7, h8, h9, h11, h12, h13, h14, h15, h16, h17, h18, h19, h20, h21, h22, h23, h24, h25, h26, h27, h28, h29, h30, h31, hx, howner x hx]
    try exact ⟨_, _, rfl⟩
  case DefaultOwnerEnabled =>
    obtain ⟨x, hx⟩ := Option.isSome_iff_exists.mp h11
    simp [UpdatePlaybook.stage, addToSetmap, addConcatToSetmap, Setmap.set, M.pure, call, h0, h1, h2, h3, h4, h5, h6, h7, h8, h9, h10, h12, h13, h14, h15, h16, h17, h18, h19, h20, h21, h22, h23, h24, h25, h26, h27, h28, h29, h30, h31, hx]
    try exact ⟨_, _, rfl⟩
  case BroadcastChannelIDs =>
    obtain ⟨x, hx⟩ := Option.isSome_iff_exists.mp h12
    simp [UpdatePlaybook.stage, addToSetmap, addConcatToSetmap, Setmap.set, M.pure, call, h0, h1, h2, h3, h4, h5, h6, h7, h8, h9, h10, h11, h13, h14, h15, h16, h17, h18, h19, h20, h21, h22, h23, h24, h25, h26, h27, h28, h29, h30, h31, hx, hbroadcast x hx]
    try exact ⟨_, _, rfl⟩
  case BroadcastEnabled =>
    obtain ⟨x, hx⟩ := Option.isSome_iff_exists.mp h13
    simp [UpdatePlaybook.stage, addToSetmap, addConcatToSetmap, Setmap.set, M.pure, call, h0, h1, h2, h3, h4, h5, h6, h7, h8, h9, h10, h11, h12, h14, h15, h16, h17, h18, h19, h20, h21, h22, h23, h24, h25, h26, h27, h28, h29, h30, h31, hx]
    try exact ⟨_, _, rfl⟩
  case WebhookOnCreationURLs =>
    obtain ⟨x, hx⟩ := Option.isSome_iff_exists.mp h14
    simp [UpdatePlaybook.stage, addToSetmap, addConcatToSetmap, Setmap.set, M.pure, call, h0, h1, h2, h3, h4, h5, h6, h7, h8, h9, h10, h11, h12, h13, h15, h16, h17, h18, h19, h20, h21, h22, h23, h24, h25, h26, h27, h28, h29, h30, h31, hx, hcreation x hx]
    try exact ⟨_, _, rfl⟩
  case WebhookOnCreationEnabled =>
    obtain ⟨x, hx⟩ := Option.isSome_iff_exists.mp h15
    simp [UpdatePlaybook.stage, addToSetmap, addConcatToSetmap, Setmap.set, M.pure, call, h0, h1, h2, h3, h4, h5, h6, h7, h8, h9, h10, h11, h12, h13, h14, h16, h17, h18, h19, h20, h21, h22, h23, h24, h25, h26, h27, h28, h29, h30, h31, hx]
    try exact ⟨_, _, rfl⟩
  case MessageOnJoin =>
    obtain ⟨x, hx⟩ := Option.isSome_iff_exists.mp h16
    simp [UpdatePlaybook.stage, addToSetmap, addConcatToSetmap, Setmap.set, M.pure, call, h0, h1, h2, h3, h4, h5, h6, h7, h8, h9, h10, h11, h12, h13, h14, h15, h17, h18, h19, h20, h21, h22, h23, h24, h25, h26, h27, h28, h29, h30, h31, hx]
    try exact ⟨_, _, rfl⟩
  case MessageOnJoinEnabled =>
    obtain ⟨x, hx⟩ := Option.isSome_iff_exists.mp h17
    simp [UpdatePlaybook.stage, addToSetmap, addConcatToSetmap, Setmap.set, M.pure, call, h0, h1, h2, h3, h4, h5, h6, h7, h8, h9, h10, h11, h12, h13, h14, h15, h16, h18, h19, h20, h21, h22, h23, h24, h25, h26, h27, h28, h29, h30, h31, hx]
    try exact ⟨_, _, rfl⟩
  case RetrospectiveReminderIntervalSeconds =>
    obtain ⟨x, hx⟩ := Option.isSome_iff_exists.mp h18
    simp [UpdatePlaybook.stage, addToSetmap, addConcatToSetmap, Setmap.set, M.pure, call, h0, h1, h2, h3, h4, h5, h6, h7, h8, h9, h10, h11, h12, h13, h14, h15, h16, h17, h19, h20, h21, h22, h23, h24, h25, h26, h27, h28, h29, h30, h31, hx]
    try exact ⟨_, _, rfl⟩
  case RetrospectiveTemplate =>
    obtain ⟨x, hx⟩ := Option.isSome_iff_exists.mp h19
    simp [UpdatePlaybook.stage, addToSetmap, addConcatToSetmap, Setmap.set, M.pure, call, h0, h1, h2, h3, h4, h5, h6, h7, h8, h9, h10, h11, h12, h13, h14, h15, h16, h17, h18, h20, h21, h22, h23, h24, h25, h26, h27, h28, h29, h30, h31, hx]
    try exact ⟨_, _, rfl⟩
  case RetrospectiveEnabled =>
    obtain ⟨x, hx⟩ := Option.isSome_iff_exists.mp h20
    simp [UpdatePlaybook.stage, addToSetmap, addConcatToSetmap, Setmap.set, M.pure, call, h0, h1, h2, h3, h4, h5, h6, h7, h8, h9, h10, h11, h12, h13, h14, h15, h16, h17, h18, h19, h21, h22, h23, h24, h25, h26, h27, h28, h29, h30, h31, hx]
    try exact ⟨_, _, rfl⟩
  case WebhookOnStatusUpdateURLs =>
    obtain ⟨x, hx⟩ := Option.isSome_iff_exists.mp h21
    simp [UpdatePlaybook.stage, addToSetmap, addConcatToSetmap, Setmap.set, M.pure, call, h0, h1, h2, h3, h4, h5, h6, h7, h8, h9, h10, h11, h12, h13, h14, h15, h16, h17, h18, h19, h20, h22, h23, h24, h25, h26, h27, h28, h29, h30, h31, hx, hstatus x hx]
    try exact ⟨_, _, rfl⟩
  case WebhookOnStatusUpdateEnabled =>
    obtain ⟨x, hx⟩ := Option.isSome_iff_exists.mp h22
    simp [UpdatePlaybook.stage, addToSetmap, addConcatToSetmap, Setmap.set, M.pure, call, h0, h1, h2, h3, h4, h5, h6, h7, h8, h9, h10, h11, h12, h13, h14, h15, h16, h17, h18, h19, h20, h21, h23, h24, h25, h26, h27, h28, h29, h30, h31, hx]
    try exact ⟨_, _, rfl⟩
  case SignalAnyKeywords =>
    obtain ⟨x, hx⟩ := Option.isSome_iff_exists.mp h23
    simp [UpdatePlaybook.stage, addToSetmap, addConcatToSetmap, Setmap.set, M.pure, call, h0, h1, h2, h3, h4, h5, h6, h7, h8, h9, h10, h11, h12, h13, h14, h15, h16, h17, h18, h19, h20, h21, h22, h24, h25, h26, h27, h28, h29, h30, h31, hx]
    try exact ⟨_, _, rfl⟩
  case SignalAnyKeywordsEnabled =>
    obtain ⟨x, hx⟩ := Option.isSome_iff_exists.mp h24
    simp [UpdatePlaybook.stage, addToSetmap, addConcatToSetmap, Setmap.set, M.pure, call, h0, h1, h2, h3, h4, h5, h6, h7, h8, h9, h10, h11, h12, h13, h14, h15, h16, h17, h18, h19, h20, h21, h22, h23, h25, h26, h27, h28, h29, h30, h31, hx]
    try exact ⟨_, _, rfl⟩
  case CategorizeChannelEnabled =>
    obtain ⟨x, hx⟩ := Option.isSome_iff_exists.mp h25
    simp [UpdatePlaybook.stage, addToSetmap, addConcatToSetmap, Setmap.set, M.pure, call, h0, h1, h2, h3, h4, h5, h6, h7, h8, h9, h10, h11, h12, h13, h14, h15, h16, h17, h18, h19, h20, h21, h22, h23, h24, h26, h27, h28, h29, h30, h31, hx]
    try exact ⟨_, _, rfl⟩
  case CategoryName =>
    obtain ⟨x, hx⟩ := Option.isSome_iff_exists.mp h26
    simp [UpdatePlaybook.stage, addToSetmap, addConcatToSetmap, Setmap.set, M.pure, call, h0, h1, h2, h3, h4, h5, h6, h7, h8, h9, h10, h11, h12, h13, h14, h15, h16, h17, h18, h19, h20, h21, h22, h23, h24, h25, h27, h28, h29, h30, h31, hx, hcategory x hx]
    try exact ⟨_, _, rfl⟩
  case RunSummaryTemplateEnabled =>
    obtain ⟨x, hx⟩ := Option.isSome_iff_exists.mp h27
    simp [UpdatePlaybook.stage, addToSetmap, addConcatToSetmap, Setmap.set, M.pure, call, h0, h1, h2, h3, h4, h5, h6, h7, h8, h9, h10, h11, h12, h13, h14, h15, h16, h17, h18, h19, h20, h21, h22, h23, h24, h25, h26, h28, h29, h30, h31, hx]
    try exact ⟨_, _, rfl⟩
  case RunSummaryTemplate =>
    obtain ⟨x, hx⟩ := Option.isSome_iff_exists.mp h28
    simp [UpdatePlaybook.stage, addToSetmap, addConcatToSetmap, Setmap.set, M.pure, call, h0, h1, h2, h3, h4, h5, h6, h7, h8, h9, h10, h11, h12, h13, h14, h15, h16, h17, h18, h19, h20, h21, h22, h23, h24, h25, h26, h27, h29, h30, h31, hx]
    try exact ⟨_, _, rfl⟩
  case ChannelNameTemplate =>
    obtain ⟨x, hx⟩ := Option.isSome_iff_exists.mp h29
    simp [UpdatePlaybook.stage, addToSetmap, addConcatToSetmap, Setmap.set, M.pure, call, h0, h1, h2, h3, h4, h5, h6, h7, h8, h9, h10, h11, h12, h13, h14, h15, h16, h17, h18, h19, h20, h21, h22, h23, h24, h25, h26, h27, h28, h30, h31, hx]
    try exact ⟨_, _, rfl⟩
  case Checklists =>
    obtain ⟨x, hx⟩ := Option.isSome_iff_exists.mp h30
    obtain ⟨b, hb⟩ := hjson x hx
    simp [UpdatePlaybook.stage, addToSetmap, addConcatToSetmap, Setmap.set, M.pure, call, h0, h1, h2, h3, h4, h5, h6, h7, h8, h9, h10, h11, h12, h13, h14, h15, h16, h17, h18, h19, h20, h21, h22, h23, h24, h25, h26, h27, h28, h29, h31, hx, hb]
    try exact ⟨_, _, rfl⟩

/-! ## The visibility field -/

/-- C2, evaluated: the licence gate of UpdatePlaybook is inverted.  For the active playbook `P1`
and an actor holding every capability, the request "Public = true" under a licence that forbids
public playbooks is staged and written by GraphqlUpdate and returns `P1` with a nil error; the
same request under a licence that allows public playbooks is aborted with an error wrapping
ErrLicensedFeature before any write. -/
theorem UpdatePlaybook_licence_gate_inverted :
    noPublicLicenceEnv.PlaybookAllowed true = false
    ∧ UpdatePlaybook noPublicLicenceEnv ⟨"P1", { noUpdates with Public := some true }⟩
        = ⟨"P1", none,
            [Call.Get "P1", Call.PlaybookManageProperties "U1" playbookP1,
              Call.PlaybookMakePrivate "U1" playbookP1, Call.PlaybookAllowed true,
              Call.GraphqlUpdate "P1" [("Public", Value.bool true)]]⟩
    ∧ (okEnv playbookP1).PlaybookAllowed true = true
    ∧ UpdatePlaybook (okEnv playbookP1) ⟨"P1", { noUpdates with Public := some true }⟩
        = ⟨"", some (Error.wrap Error.ErrLicensedFeature
              "the playbook is not valid with the current license"),
            [Call.Get "P1", Call.PlaybookManageProperties "U1" playbookP1,
              Call.PlaybookMakePrivate "U1" playbookP1, Call.PlaybookAllowed true]⟩ := by
  decide

/-- C3, evaluated: the capability checks of the visibility field are swapped.  For an actor who
may make `P1` private but not public, the request "Public = true" consults PlaybookMakePrivate
(and passes it) and never PlaybookMakePublic, while the request "Public = false" consults
PlaybookMakePublic and is refused.  In both cases the capability check precedes the licence
check. -/
theorem UpdatePlaybook_visibility_capability_swapped :
    (UpdatePlaybook noMakePublicEnv ⟨"P1", { noUpdates with Public := some true }⟩).trace
        = [Call.Get "P1", Call.PlaybookManageProperties "U1" playbookP1,
            Call.PlaybookMakePrivate "U1" playbookP1, Call.PlaybookAllowed true]
    ∧ UpdatePlaybook noMakePublicEnv ⟨"P1", { noUpdates with Public := some false }⟩
        = ⟨"", some (Error.wrap Error.ErrNoPermissions
              "attempted to make playbook public without permissions"),
            [Call.Get "P1", Call.PlaybookManageProperties "U1" playbookP1,
              Call.PlaybookMakePublic "U1" playbookP1]⟩ := by
  decide

/-- C4, evaluated: a failed licence check does not abort the update.  Under a licence that
forbids public playbooks, the request "Title, Public = true, IsFavorite = true" on the active
playbook `P1` returns `P1` with a nil error after calling GraphqlUpdate with both fields and
AddFavorite. -/
theorem UpdatePlaybook_forbidden_licence_persists :
    noPublicLicenceEnv.PlaybookAllowed true = false
    ∧ UpdatePlaybook noPublicLicenceEnv
        ⟨"P1", { noUpdates with
          Title := some "Runbook", Public := some true, IsFavorite := some true }⟩
        = ⟨"P1", none,
            [Call.Get "P1", Call.PlaybookManageProperties "U1" playbookP1,
              Call.PlaybookMakePrivate "U1" playbookP1, Call.PlaybookAllowed true,
              Call.GraphqlUpdate "P1" [("Title", Value.str "Runbook"), ("Public", Value.bool true)],
              Call.AddFavorite ⟨"P1", PlaybookItemType⟩ "T1" "U1"]⟩ := by
  decide

/-! ## Failed checks -/

/-- A staging that returns aborts UpdatePlaybook with a non-nil error and the empty string, after
no write at all. -/
theorem UpdatePlaybook_failed_staging_no_write (env : Env) (pb : Playbook)
    (args : UpdatePlaybookArgs) (r : Ret) (t : List Call)
    (hctx : env.getContext = none) (hget : env.Get args.ID = Except.ok pb)
    (hact : pb.DeleteAt = 0) (hman : env.PlaybookManageProperties env.userID pb = none)
    (hst : UpdatePlaybook.stage env env.userID pb args.ID args.Updates = (Except.error r, t)) :
    (UpdatePlaybook env args).err ≠ none ∧ (UpdatePlaybook env args).val = ""
      ∧ (UpdatePlaybook env args).writes = [] := by
  have hv := (stage_validates env env.userID pb args.ID args.Updates).2 r (by rw [hst])
  have hq := (stage_trace_quiet env env.userID pb args.ID args.Updates _ t hst).2.2
  rw [UpdatePlaybook_stage_error env pb args r t hctx hget hact hman hst]
  exact ⟨hv.2, hv.1, by simp [Outcome.writes, Call.isWrite, hq]⟩

/-- A proposed default owner who cannot view the team of the playbook aborts the update with an
error wrapping ErrNoPermissions, whatever else the request supplies besides Public, and nothing
is written. -/
theorem UpdatePlaybook_default_owner_without_view_team (env : Env) (pb : Playbook)
    (args : UpdatePlaybookArgs) (owner : String)
    (hctx : env.getContext = none) (hget : env.Get args.ID = Except.ok pb)
    (hact : pb.DeleteAt = 0) (hman : env.PlaybookManageProperties env.userID pb = none)
    (hpublic : args.Updates.Public = none)
    (howner : args.Updates.DefaultOwnerID = some owner)
    (hview : env.HasPermissionToTeam owner pb.TeamID PermissionViewTeam = false) :
    (UpdatePlaybook env args).err
        = some (Error.wrap Error.ErrNoPermissions "default owner can't view team")
      ∧ ((Error.wrap Error.ErrNoPermissions "default owner can't view team").wraps
          Error.ErrNoPermissions = true)
      ∧ (UpdatePlaybook env args).val = ""
      ∧ (UpdatePlaybook env args).writes = [] := by
  have hst : ∃ t, UpdatePlaybook.stage env env.userID pb args.ID args.Updates
      = (Except.error ⟨"", some (Error.wrap Error.ErrNoPermissions
          "default owner can't view team")⟩, t) := by
    unfold UpdatePlaybook.stage
    simp only [seq_bind, seq_pure, hpublic, howner, hview]
    cases args.Updates.InvitedUserIDs <;> cases args.Updates.InvitedGroupIDs <;>
      simp [M.pure, call, ret]
  obtain ⟨t, hst⟩ := hst
  have h := UpdatePlaybook_failed_staging_no_write env pb args _ t hctx hget hact hman hst
  rw [UpdatePlaybook_stage_error env pb args _ t hctx hget hact hman hst] at h ⊢
  exact ⟨rfl, by decide, h.2.1, h.2.2⟩

/-! ## The write of the change set and the favorite toggle -/

/-- C5, as stated, fails on the active playbook `P1` for an actor holding every capability.
The request that supplies IsFavorite and no other field makes no GraphqlUpdate call at all; the
request that supplies only CreatePublicPlaybookRun is written under the key
"CreatePublicIncident", not under the name of the field; and the request that supplies only a
DefaultOwnerID who cannot view the team is refused before any GraphqlUpdate call. -/
theorem UpdatePlaybook_only_IsFavorite_no_GraphqlUpdate :
    (∀ f, ({ noUpdates with IsFavorite := some true } : Updates).supplied f
        = decide (f = Field.IsFavorite))
    ∧ UpdatePlaybook (okEnv playbookP1) ⟨"P1", { noUpdates with IsFavorite := some true }⟩
        = ⟨"P1", none,
            [Call.Get "P1", Call.PlaybookManageProperties "U1" playbookP1,
              Call.AddFavorite ⟨"P1", PlaybookItemType⟩ "T1" "U1"]⟩
    ∧ (UpdatePlaybook (okEnv playbookP1)
        ⟨"P1", { noUpdates with IsFavorite := some true }⟩).trace.filter Call.isGraphqlUpdate
        = []
    ∧ (UpdatePlaybook (okEnv playbookP1)
        ⟨"P1", { noUpdates with CreatePublicPlaybookRun := some true }⟩).trace.filter
          Call.isGraphqlUpdate
        = [Call.GraphqlUpdate "P1" [("CreatePublicIncident", Value.bool true)]]
    ∧ UpdatePlaybook outsiderOwnerEnv ⟨"P1", { noUpdates with DefaultOwnerID := some "U9" }⟩
        = ⟨"", some (Error.wrap Error.ErrNoPermissions "default owner can't view team"),
            [Call.Get "P1", Call.PlaybookManageProperties "U1" playbookP1,
              Call.HasPermissionToTeam "U9" "T1" PermissionViewTeam]⟩ := by
  refine ⟨fun f => by cases f <;> rfl, by decide, by decide, by decide, by decide⟩

/-- C5, amended: on an active playbook and for an actor who may manage its properties, a request
that supplies exactly one field X, where X is a change-set field (not IsFavorite) other than
Public and the field's own check passes (the proposed default owner can view the team, the
broadcast channels are permitted, the webhook URLs and the category name are valid, the checklists
marshal), makes exactly one GraphqlUpdate call, whose change set has exactly one entry, under the
key of X; a supplied Title is stored as given; and the call returns the playbook ID with a nil
error when that store call succeeds. -/
theorem UpdatePlaybook_single_field (env : Env) (pb : Playbook) (args : UpdatePlaybookArgs)
    (X : Field) (k : String)
    (hctx : env.getContext = none) (hget : env.Get args.ID = Except.ok pb)
    (hact : pb.DeleteAt = 0) (hman : env.PlaybookManageProperties env.userID pb = none)
    (honly : ∀ f, args.Updates.supplied f = decide (f = X))
    (hkey : X.key = some k) (hX : X ≠ Field.Public)
    (howner : ∀ owner, args.Updates.DefaultOwnerID = some owner →
      env.HasPermissionToTeam owner pb.TeamID PermissionViewTeam = true)
    (hbroadcast : ∀ ids, args.Updates.BroadcastChannelIDs = some ids →
      env.NoAddedBroadcastChannelsWithoutPermission env.userID ids pb.BroadcastChannelIDs = none)
    (hcreation : ∀ urls, args.Updates.WebhookOnCreationURLs = some urls →
      env.ValidateWebhookURLs urls = none)
    (hstatus : ∀ urls, args.Updates.WebhookOnStatusUpdateURLs = some urls →
      env.ValidateWebhookURLs urls = none)
    (hcategory : ∀ name, args.Updates.CategoryName = some name →
      env.ValidateCategoryName name = none)
    (hjson : ∀ checklists, args.Updates.Checklists = some checklists →
      ∃ b, env.jsonMarshal checklists = Except.ok b) :
    ∃ v, (UpdatePlaybook env args).trace.filter Call.isGraphqlUpdate
          = [Call.GraphqlUpdate args.ID [(k, v)]]
      ∧ (∀ title, args.Updates.Title = some title → v = Value.str title)
      ∧ (env.GraphqlUpdate args.ID [(k, v)] = none →
          (UpdatePlaybook env args).val = args.ID ∧ (UpdatePlaybook env args).err = none) := by
  obtain ⟨v, t, hst, hv⟩ := stage_single_field env env.userID pb args.ID args.Updates X k honly
    hkey hX howner hbroadcast hcreation hstatus hcategory hjson
  have hfav : args.Updates.IsFavorite = none := by
    have h := honly Field.IsFavorite
    have hne : Field.IsFavorite ≠ X := by
      intro hx
      rw [← hx] at hkey
      cases hkey
    simpa [Updates.supplied, hne] using h
  have hq := (stage_trace_quiet env env.userID pb args.ID args.Updates _ t hst).1
  refine ⟨v, ?_, hv, ?_⟩
  · rw [UpdatePlaybook_stage_write env pb args _ t hctx hget hact hman hst (by simp)]
    cases env.GraphqlUpdate args.ID [(k, v)] <;>
      simp [toggled, hfav, List.filter_append, hq, Call.isGraphqlUpdate]
  · intro hw
    rw [UpdatePlaybook_stage_write env pb args _ t hctx hget hact hman hst (by simp)]
    simp [hw, toggled, hfav]

/-- Witness of C5: the request "Title = Incident Response" on the active playbook `P1`. -/
theorem UpdatePlaybook_single_field_witness :
    ∃ v, (UpdatePlaybook (okEnv playbookP1)
            ⟨"P1", { noUpdates with Title := some "Incident Response" }⟩).trace.filter
              Call.isGraphqlUpdate
          = [Call.GraphqlUpdate "P1" [("Title", v)]]
      ∧ (∀ title, some "Incident Response" = some title → v = Value.str title)
      ∧ ((okEnv playbookP1).GraphqlUpdate "P1" [("Title", v)] = none →
          (UpdatePlaybook (okEnv playbookP1)
              ⟨"P1", { noUpdates with Title := some "Incident Response" }⟩).val = "P1"
            ∧ (UpdatePlaybook (okEnv playbookP1)
              ⟨"P1", { noUpdates with Title := some "Incident Response" }⟩).err = none) :=
  UpdatePlaybook_single_field (okEnv playbookP1) playbookP1
    ⟨"P1", { noUpdates with Title := some "Incident Response" }⟩ Field.Title "Title"
    rfl rfl rfl rfl (fun f => by cases f <;> rfl) rfl (by decide)
    (fun _ _ => rfl) (fun _ _ => rfl) (fun _ _ => rfl) (fun _ _ => rfl) (fun _ _ => rfl)
    (fun _ _ => ⟨"[]", rfl⟩)

/-- C9: on an active playbook and for an actor who may manage its properties, UpdatePlaybook
calls GraphqlUpdate at most once.  When the staging has passed every check with the change set
`s`: the call is made exactly once, with `s`, if `s` is not empty, and not at all if `s` is empty;
`s` is not empty exactly when the request supplies a field other than IsFavorite; with an empty
`s` the mutation returns the supplied ID with a nil error (a requested favorite toggle
succeeding).  A request that supplies only IsFavorite makes no GraphqlUpdate call.  Likewise
UpdateMetric calls the store's UpdateMetric exactly once with its change set when Title,
Description or Target is supplied, and otherwise makes no such call and returns the supplied ID
with a nil error. -/
theorem change_set_written_at_most_once (env : Env) (pb : Playbook) (args : UpdatePlaybookArgs)
    (metric : PlaybookMetricConfig) (mpb : Playbook) (margs : UpdateMetricArgs)
    (hctx : env.getContext = none) (hget : env.Get args.ID = Except.ok pb)
    (hact : pb.DeleteAt = 0) (hman : env.PlaybookManageProperties env.userID pb = none)
    (hmetric : env.GetMetric margs.ID = Except.ok metric)
    (hmget : env.Get metric.PlaybookID = Except.ok mpb) (hmact : mpb.DeleteAt = 0)
    (hmman : env.PlaybookManageProperties env.userID mpb = none) :
    ((UpdatePlaybook env args).trace.filter Call.isGraphqlUpdate).length ≤ 1
    ∧ (∀ s t, UpdatePlaybook.stage env env.userID pb args.ID args.Updates = (Except.ok s, t) →
        (UpdatePlaybook env args).trace.filter Call.isGraphqlUpdate
            = (if s = [] then [] else [Call.GraphqlUpdate args.ID s])
        ∧ (s ≠ [] ↔ ∃ f, f ≠ Field.IsFavorite ∧ args.Updates.supplied f = true)
        ∧ (s = [] →
            (args.Updates.IsFavorite = some true →
              env.AddFavorite ⟨pb.ID, PlaybookItemType⟩ pb.TeamID env.userID = none) →
            (args.Updates.IsFavorite = some false →
              env.DeleteFavorite ⟨pb.ID, PlaybookItemType⟩ pb.TeamID env.userID = none) →
            (UpdatePlaybook env args).val = args.ID ∧ (UpdatePlaybook env args).err = none))
    ∧ ((∀ f, args.Updates.supplied f = true → f = Field.IsFavorite) →
        (UpdatePlaybook env args).trace.filter Call.isGraphqlUpdate = [])
    ∧ (UpdateMetric env margs).trace.filter Call.isUpdateMetric
        = (if UpdateMetric.stage env margs = [] then []
            else [Call.UpdateMetric margs.ID (UpdateMetric.stage env margs)])
    ∧ (UpdateMetric.stage env margs ≠ []
        ↔ margs.Title ≠ none ∨ margs.Description ≠ none ∨ margs.Target ≠ none)
    ∧ (UpdateMetric.stage env margs = [] →
        (UpdateMetric env margs).val = margs.ID ∧ (UpdateMetric env margs).err = none) := by
  -- the GraphqlUpdate calls of UpdatePlaybook, by the result of the staging
  have hcalls : ∀ s t,
      UpdatePlaybook.stage env env.userID pb args.ID args.Updates = (Except.ok s, t) →
      (UpdatePlaybook env args).trace.filter Call.isGraphqlUpdate
        = (if s = [] then [] else [Call.GraphqlUpdate args.ID s]) := by
    intro s t hst
    have hq := (stage_trace_quiet env env.userID pb args.ID args.Updates _ t hst).1
    by_cases hs : s = []
    · subst hs
      rw [UpdatePlaybook_stage_empty env pb args t hctx hget hact hman hst, if_pos rfl]
      unfold toggled
      repeat' split
      all_goals simp [List.filter_append, hq, Call.isGraphqlUpdate]
    · rw [UpdatePlaybook_stage_write env pb args s t hctx hget hact hman hst hs, if_neg hs]
      unfold toggled
      repeat' split
      all_goals simp [List.filter_append, hq, Call.isGraphqlUpdate]
  have hnil : ∀ s t,
      UpdatePlaybook.stage env env.userID pb args.ID args.Updates = (Except.ok s, t) →
      (s ≠ [] ↔ ∃ f, f ≠ Field.IsFavorite ∧ args.Updates.supplied f = true) := by
    intro s t hst
    rw [Ne, stage_nil_iff env env.userID pb args.ID args.Updates s t hst]
    simp
  refine ⟨?_, ?_, ?_, ?_, ?_, ?_⟩
  · rcases hst : UpdatePlaybook.stage env env.userID pb args.ID args.Updates with ⟨r | s, t⟩
    · have hq := (stage_trace_quiet env env.userID pb args.ID args.Updates _ t hst).1
      rw [UpdatePlaybook_stage_error env pb args r t hctx hget hact hman hst]
      simp [hq, Call.isGraphqlUpdate]
    · rw [hcalls s t hst]
      split <;> simp
  · intro s t hst
    refine ⟨hcalls s t hst, hnil s t hst, ?_⟩
    intro hs hadd hdel
    subst hs
    rw [UpdatePlaybook_stage_empty env pb args t hctx hget hact hman hst]
    unfold toggled
    rcases hfav : args.Updates.IsFavorite with _ | _ | _
    · simp
    · simp [hdel hfav]
    · simp [hadd hfav]
  · intro honly
    rcases hst : UpdatePlaybook.stage env env.userID pb args.ID args.Updates with ⟨r | s, t⟩
    · have hq := (stage_trace_quiet env env.userID pb args.ID args.Updates _ t hst).1
      rw [UpdatePlaybook_stage_error env pb args r t hctx hget hact hman hst]
      simp [hq, Call.isGraphqlUpdate]
    · have hs : s = [] := by
        by_contra hne
        obtain ⟨f, hf, hsup⟩ := (hnil s t hst).mp hne
        exact hf (honly f hsup)
      rw [hcalls s t hst, if_pos hs]
  · simp only [UpdateMetric, getContext, hctx, hmetric, hmget, hmact, hmman, seq_bind, seq_pure,
      failOn_none, bind_pure_M, orFail_ok, bind_call, ne_eq, not_true_eq_false, if_false]
    generalize UpdateMetric.stage env margs = s
    by_cases hs : s = []
    · subst hs
      simp [Call.isUpdateMetric]
    · have hlen : 0 < s.length := List.length_pos.mpr hs
      rcases env.UpdateMetric margs.ID s with _ | e <;> simp [hlen, hs, Call.isUpdateMetric]
  · unfold UpdateMetric.stage
    rcases margs.Target with _ | f
    · simp only [addToSetmap_eq_nil, Option.map_eq_none', true_and, ne_eq]
      tauto
    · simp [setmap_set_ne_nil]
  · intro hs
    simp [UpdateMetric, getContext, hctx, hmetric, hmget, hmact, hmman, hs]

/-- Witness of C9: on the active playbook `P1`, the request "Title" is written once, and the
metric request "Title" is written once. -/
theorem change_set_written_at_most_once_witness :
    UpdatePlaybook.stage (okEnv playbookP1) "U1" playbookP1 "P1"
        { noUpdates with Title := some "Runbook" }
      = (Except.ok [("Title", Value.str "Runbook")], [])
    ∧ (UpdatePlaybook (okEnv playbookP1)
        ⟨"P1", { noUpdates with Title := some "Runbook" }⟩).trace.filter Call.isGraphqlUpdate
      = [Call.GraphqlUpdate "P1" [("Title", Value.str "Runbook")]]
    ∧ (UpdateMetric (okEnv playbookP1) ⟨"M1", some "MTTA", none, none⟩).trace.filter
        Call.isUpdateMetric
      = [Call.UpdateMetric "M1" [("Title", Value.str "MTTA")]] := by
  have h := change_set_written_at_most_once (okEnv playbookP1) playbookP1
    ⟨"P1", { noUpdates with Title := some "Runbook" }⟩
    ⟨"M1", "P1", "MTTR", "Mean time to resolve", "metric_duration", NullInt.NewInt 0 false⟩
    playbookP1 ⟨"M1", some "MTTA", none, none⟩ rfl rfl rfl rfl rfl rfl rfl rfl
  refine ⟨rfl, ?_, ?_⟩
  · rw [(h.2.1 [("Title", Value.str "Runbook")] [] rfl).1]
    rfl
  · rw [h.2.2.2.1]
    rfl

/-- Without IsFavorite in the request UpdatePlaybook never calls the favorite service, whatever
the surroundings answer. -/
theorem UpdatePlaybook_no_favorite_call (env : Env) (args : UpdatePlaybookArgs)
    (hfav : args.Updates.IsFavorite = none) :
    (UpdatePlaybook env args).trace.filter Call.isFavorite = [] := by
  rcases hctx : env.getContext with _ | e
  · rcases hget : env.Get args.ID with e | pb
    · simp [UpdatePlaybook, getContext, hctx, hget, Call.isFavorite]
    · by_cases hact : pb.DeleteAt = 0
      · rcases hman : env.PlaybookManageProperties env.userID pb with _ | e
        · rcases hst : UpdatePlaybook.stage env env.userID pb args.ID args.Updates with ⟨r | s, t⟩
          · have hq := (stage_trace_quiet env env.userID pb args.ID args.Updates _ t hst).2.1
            rw [UpdatePlaybook_stage_error env pb args r t hctx hget hact hman hst]
            simp [hq, Call.isFavorite]
          · have hq := (stage_trace_quiet env env.userID pb args.ID args.Updates _ t hst).2.1
            by_cases hs : s = []
            · subst hs
              rw [UpdatePlaybook_stage_empty env pb args t hctx hget hact hman hst]
              simp [toggled, hfav, hq, Call.isFavorite]
            · rw [UpdatePlaybook_stage_write env pb args s t hctx hget hact hman hst hs]
              cases env.GraphqlUpdate args.ID s <;>
                simp [toggled, hfav, hq, List.filter_append, Call.isFavorite]
        · simp [UpdatePlaybook, getContext, hctx, hget, hact, hman, Call.isFavorite]
      · simp [UpdatePlaybook, getContext, hctx, hget, hact, Call.isFavorite]
  · simp [UpdatePlaybook, getContext, hctx]

/-- C10: in UpdatePlaybook the favorite toggle runs strictly after the write of the change set
and is not transactional with it.  Let the staging have passed every check with the change set
`s`, so that the patch step is one GraphqlUpdate call (none when `s` is empty).  Up to and
including the patch step no favorite call is made.  (i) If GraphqlUpdate returns an error, the
mutation returns it and stops there. (ii) With IsFavorite nil the mutation returns the ID after
the patch step, with no favorite call. (iii) With IsFavorite true the only call after the patch
step is AddFavorite, with IsFavorite false it is DeleteFavorite, each with the key (playbook ID,
PlaybookItemType, playbook TeamID, actor ID). (iv) The error of that favorite call is the error
of the mutation, and the trace then still ends with the GraphqlUpdate call followed by the
favorite call: no compensating write is issued.  Moreover a request without IsFavorite makes no
favorite call in any surroundings. -/
theorem favorite_toggle_after_patch (env : Env) (pb : Playbook) (args : UpdatePlaybookArgs)
    (s : Setmap) (t : List Call)
    (hctx : env.getContext = none) (hget : env.Get args.ID = Except.ok pb)
    (hact : pb.DeleteAt = 0) (hman : env.PlaybookManageProperties env.userID pb = none)
    (hst : UpdatePlaybook.stage env env.userID pb args.ID args.Updates = (Except.ok s, t)) :
    ∃ patched : List Call,
      patched = Call.Get args.ID :: Call.PlaybookManageProperties env.userID pb ::
          (t ++ if s = [] then [] else [Call.GraphqlUpdate args.ID s])
      ∧ patched.filter Call.isFavorite = []
      ∧ (∀ (env' : Env) (args' : UpdatePlaybookArgs), args'.Updates.IsFavorite = none →
          (UpdatePlaybook env' args').trace.filter Call.isFavorite = [])
      ∧ (∀ e, s ≠ [] → env.GraphqlUpdate args.ID s = some e →
          UpdatePlaybook env args = ⟨"", some e, patched⟩)
      ∧ ((s = [] ∨ env.GraphqlUpdate args.ID s = none) →
          (args.Updates.IsFavorite = none → UpdatePlaybook env args = ⟨args.ID, none, patched⟩)
          ∧ (args.Updates.IsFavorite = some true →
              UpdatePlaybook env args
                = ⟨if env.AddFavorite ⟨pb.ID, PlaybookItemType⟩ pb.TeamID env.userID = none
                      then args.ID else "",
                    env.AddFavorite ⟨pb.ID, PlaybookItemType⟩ pb.TeamID env.userID,
                    patched
                      ++ [Call.AddFavorite ⟨pb.ID, PlaybookItemType⟩ pb.TeamID env.userID]⟩)
          ∧ (args.Updates.IsFavorite = some false →
              UpdatePlaybook env args
                = ⟨if env.DeleteFavorite ⟨pb.ID, PlaybookItemType⟩ pb.TeamID env.userID = none
                      then args.ID else "",
                    env.DeleteFavorite ⟨pb.ID, PlaybookItemType⟩ pb.TeamID env.userID,
                    patched
                      ++ [Call.DeleteFavorite ⟨pb.ID, PlaybookItemType⟩ pb.TeamID
                        env.userID]⟩)) := by
  have hq := (stage_trace_quiet env env.userID pb args.ID args.Updates _ t hst).2.1
  refine ⟨_, rfl, ?_, UpdatePlaybook_no_favorite_call, ?_, ?_⟩
  · by_cases hs : s = [] <;> simp [hs, List.filter_append, hq, Call.isFavorite]
  · intro e hs hw
    rw [UpdatePlaybook_stage_write env pb args s t hctx hget hact hman hst hs]
    simp [hw, hs]
  · intro hok
    have hrun : UpdatePlaybook env args
        = toggled env pb args (Call.Get args.ID :: Call.PlaybookManageProperties env.userID pb ::
            (t ++ if s = [] then [] else [Call.GraphqlUpdate args.ID s])) := by
      by_cases hs : s = []
      · subst hs
        rw [UpdatePlaybook_stage_empty env pb args t hctx hget hact hman hst]
        simp
      · have hw : env.GraphqlUpdate args.ID s = none := by
          rcases hok with h | h
          · exact absurd h hs
          · exact h
        rw [UpdatePlaybook_stage_write env pb args s t hctx hget hact hman hst hs]
        simp [hw, hs]
    rw [hrun]
    refine ⟨?_, ?_, ?_⟩
    · intro hfav
      simp [toggled, hfav]
    · intro hfav
      simp only [toggled, hfav]
      cases env.AddFavorite ⟨pb.ID, PlaybookItemType⟩ pb.TeamID env.userID <;> simp
    · intro hfav
      simp only [toggled, hfav]
      cases env.DeleteFavorite ⟨pb.ID, PlaybookItemType⟩ pb.TeamID env.userID <;> simp

/-- Witness of C10: on the active playbook `P1` the request "Title, IsFavorite = true" with a
favorite service that fails: the title is written, then AddFavorite fails and its error is
returned. -/
theorem favorite_toggle_after_patch_witness :
    UpdatePlaybook.stage failingFavoriteEnv "U1" playbookP1 "P1"
        { noUpdates with Title := some "Runbook", IsFavorite := some true }
      = (Except.ok [("Title", Value.str "Runbook")], [])
    ∧ UpdatePlaybook failingFavoriteEnv
        ⟨"P1", { noUpdates with Title := some "Runbook", IsFavorite := some true }⟩
      = ⟨"", some (Error.new "favorite store down"),
          [Call.Get "P1", Call.PlaybookManageProperties "U1" playbookP1,
            Call.GraphqlUpdate "P1" [("Title", Value.str "Runbook")],
            Call.AddFavorite ⟨"P1", PlaybookItemType⟩ "T1" "U1"]⟩ := by
  obtain ⟨patched, hp, -, -, -, h⟩ := favorite_toggle_after_patch failingFavoriteEnv playbookP1
    ⟨"P1", { noUpdates with Title := some "Runbook", IsFavorite := some true }⟩
    [("Title", Value.str "Runbook")] [] rfl rfl rfl rfl rfl
  refine ⟨rfl, ?_⟩
  rw [(h (Or.inr rfl)).2.1 rfl, hp]
  rfl

end api
